import Mathlib

/-!
Shallow embedding of the FSLeyes 3D scene renderer core
(`fsleyes/gl/scene3dcanvas.py`): the render-object registry, the
view/projection computation, the scene compositor ordering policy and the
canvas-to-world coordinate mapping, together with proofs of the stated
properties.

Conventions:
- Python dicts keyed by overlay become association lists
  `List (Overlay × Option GLObj)`; the value `none` is the pending
  sentinel (`False` in the source), `some g` a ready `GLObject`.
- `fsl.utils.transform` (external dependency) is modelled with 4x4
  rational matrices; `np.linalg.inv` becomes adjugate over determinant.
- Exceptions (`InvalidOverlayError` propagation, `AttributeError` from
  calling `deregister` on the `False` sentinel) are modelled by `Option`:
  `none` means the call raised.
- Deferred (`async.idle`) construction tasks are modelled by an explicit
  task queue consumed by `runNextTask`.
-/

namespace Scene3D

/-- Classification of an overlay object, mirroring the `isinstance`
checks against `fslmesh.TriangleMesh` and `fslimage.Image`. -/
inductive OverlayClass where
  | triangleMesh
  | image
  | otherClass
deriving DecidableEq

/-- An overlay: identity (`oid`) plus its Python class. -/
structure Overlay where
  oid : ℕ
  cls : OverlayClass
deriving DecidableEq

/-- A per-overlay `Display` record of the display context. -/
structure Display where
  enabled : Bool
  overlayType : String
deriving DecidableEq

/-- A constructed `GLObject` adapter (identity plus its `ready()` flag). -/
structure GLObj where
  gid : ℕ
  isReady : Bool
deriving DecidableEq

/-- One subscription made by the canvas, keyed the way the source keys
them (`self.__name` on a given target/property). -/
inductive Listener where
  | overlaysL
  | boundsL
  | optsL (prop : String)
  | displayEnabled (o : Overlay)
  | displayType (o : Overlay)
  | globjRegister (o : Overlay)
deriving DecidableEq

/-- The display-context bounds: axis-aligned box in world space. -/
structure Bounds where
  xlo : ℚ
  xhi : ℚ
  ylo : ℚ
  yhi : ℚ
  zlo : ℚ
  zhi : ℚ
deriving DecidableEq

def Bounds.xlen (b : Bounds) : ℚ := b.xhi - b.xlo

def Bounds.ylen (b : Bounds) : ℚ := b.yhi - b.ylo

def Bounds.zlen (b : Bounds) : ℚ := b.zhi - b.zlo

abbrev Vec3 := Fin 3 → ℚ

abbrev Mat3 := Matrix (Fin 3) (Fin 3) ℚ

abbrev Mat4 := Matrix (Fin 4) (Fin 4) ℚ

/-- Centre of the bounds, as computed in `__genViewMatrix`:
`[b.xlo + 0.5 * b.xlen, b.ylo + 0.5 * b.ylen, b.zlo + 0.5 * b.zlen]`. -/
def Bounds.centre (b : Bounds) : Vec3 :=
  ![b.xlo + b.xlen / 2, b.ylo + b.ylen / 2, b.zlo + b.zlen / 2]

/-- fsl.utils.transform.scaleOffsetXform (external dependency): affine
with diagonal scales and a translation column. -/
def scaleOffsetXform (s : Vec3) (t : Vec3) : Mat4 :=
  Matrix.of ![![s 0, 0, 0, t 0],
              ![0, s 1, 0, t 1],
              ![0, 0, s 2, t 2],
              ![0, 0, 0, 1]]

/-- Pure translation, i.e. `scaleOffsetXform(1, offset)`. -/
def translationXform (t : Vec3) : Mat4 := scaleOffsetXform ![1, 1, 1] t

/-- Embed a 3x3 linear map as a 4x4 affine matrix. -/
def embed3 (R : Mat3) : Mat4 :=
  Matrix.of ![![R 0 0, R 0 1, R 0 2, 0],
              ![R 1 0, R 1 1, R 1 2, 0],
              ![R 2 0, R 2 1, R 2 2, 0],
              ![0, 0, 0, 1]]

/-- fsl.utils.transform.rotMatToAffine (external dependency): rotation
about a given origin point. -/
def rotMatToAffine (R : Mat3) (origin : Vec3) : Mat4 :=
  translationXform origin * embed3 R * translationXform (fun i => -(origin i))

/-- fsl.utils.transform.invert, i.e. `np.linalg.inv`, written as the
adjugate over the determinant so that it is executable. -/
def invert4 (M : Mat4) : Mat4 := (M.det)⁻¹ • M.adjugate

/-- fsl.utils.transform.transform applied to a single 3D point: apply
the upper 3x4 of an affine matrix. -/
def affineApply (M : Mat4) (p : Vec3) : Vec3 :=
  ![M 0 0 * p 0 + M 0 1 * p 1 + M 0 2 * p 2 + M 0 3,
    M 1 0 * p 0 + M 1 1 * p 1 + M 1 2 * p 2 + M 1 3,
    M 2 0 * p 0 + M 2 1 * p 1 + M 2 2 * p 2 + M 2 3]

/-- Homogeneous lift of a 3D point. -/
def toHom (p : Vec3) : Fin 4 → ℚ := ![p 0, p 1, p 2, 1]

def cross (a b : Vec3) : Vec3 :=
  ![a 1 * b 2 - a 2 * b 1, a 2 * b 0 - a 0 * b 2, a 0 * b 1 - a 1 * b 0]

def dot3 (a b : Vec3) : ℚ := a 0 * b 0 + a 1 * b 1 + a 2 * b 2

/-- Modelled from the spec: `fsleyes.gl.routines.adjust` is not under
`src/`; the spec describes it as the aspect-correct adjustment of scene
extents to the viewport width/height ratio. The returned extents have
aspect `w/h` and cover the given extents. -/
def adjust (xl yl w h : ℚ) : ℚ × ℚ :=
  if yl / h ≤ xl / w then (xl, xl * h / w) else (yl * w / h, yl)

/-- Modelled from the spec: `fsleyes.gl.routines.lookAt` is not under
`src/`; the spec describes a static look-at camera. This is the standard
look-at matrix, with normalisation omitted because the canvas only calls
it with the unit-distance axis-aligned configuration (eye = centre + ŷ,
up = ẑ), for which all basis vectors are already unit length. -/
def lookAt (eye centre up : Vec3) : Mat4 :=
  let f : Vec3 := fun i => centre i - eye i
  let s : Vec3 := cross f up
  let u : Vec3 := cross s f
  Matrix.of ![![s 0, s 1, s 2, -(dot3 s eye)],
              ![u 0, u 1, u 2, -(dot3 u eye)],
              ![-(f 0), -(f 1), -(f 2), dot3 f eye],
              ![0, 0, 0, 1]]

/-- Modelled from the spec: `fsleyes.gl.routines.ortho` is not under
`src/`; the spec describes an orthographic projection over the zoomed
bounds, sized to the viewport aspect ratio. -/
def ortho (blo bhi : Vec3) (w h : ℕ) (zoom : ℚ) : Mat4 :=
  let p := adjust (bhi 0 - blo 0) (bhi 1 - blo 1) (w : ℚ) (h : ℚ)
  let zl := bhi 2 - blo 2
  Matrix.of ![![2 * zoom / p.1, 0, 0, 0],
              ![0, 2 * zoom / p.2, 0, 0],
              ![0, 0, -1 / zl, 0],
              ![0, 0, 0, 1]]

/-- `np.isclose` with its default tolerances `rtol=1e-5`, `atol=1e-8`:
`|a - b| <= atol + rtol * |b|`. -/
def isclose (a b : ℚ) : Bool := decide (|a - b| ≤ 1 / 100000000 + |b| / 100000)

/-- Number of degenerate (flat) axes of the bounds:
`np.sum(np.isclose(blo, bhi))` in `__setViewport`. -/
def degenCount (b : Bounds) : ℕ :=
  (if isclose b.xlo b.xhi then 1 else 0) +
  (if isclose b.ylo b.yhi then 1 else 0) +
  (if isclose b.zlo b.zhi then 1 else 0)

/-- The observable `Scene3DCanvasOpts` configuration of one canvas. -/
structure Opts where
  occlusion : Bool
  zoom : ℚ
  offset : ℚ × ℚ
  rotation : Mat3
  pos : Vec3
  showCursor : Bool
  showLegend : Bool
  bgColour : ℕ
  cursorColour : ℕ
  legendColour : ℕ
  lightPos : Vec3
deriving DecidableEq

/-- Modelled from the spec: the property list of `Scene3DCanvasOpts`
(`fsleyes/displaycontext/canvasopts.py` is not under `src/`); §3 of the
spec lists camera pose (zoom, 2D offset, 3D rotation),
background/cursor/legend colours, light position, occlusion flag,
legend/cursor visibility flags, and cursor world position. -/
def sceneOptsProps : List String :=
  ["zoom", "offset", "rotation", "bgColour", "cursorColour", "legendColour",
   "lightPos", "occlusion", "showLegend", "showCursor", "pos"]

/-- The opts properties the canvas subscribes `Refresh` to in
`__init__`. -/
def subscribedOptsProps : List String :=
  ["pos", "showCursor", "cursorColour", "bgColour", "showLegend",
   "occlusion", "zoom", "offset", "rotation"]

/-- The full state of one `Scene3DCanvas`. `alive = false` models
`self.__overlayList is None`, i.e. `destroyed()`. -/
structure Canvas where
  alive : Bool
  opts : Opts
  glObjects : List (Overlay × Option GLObj)
  listeners : List Listener
  tasks : List Overlay
  refreshCount : ℕ
  width : ℕ
  height : ℕ
  viewMat : Mat4
  projMat : Mat4
  viewOffset : Mat4
  viewScale : Mat4
  viewRotate : Mat4
  viewCamera : Mat4
  resetLight : Bool
deriving DecidableEq

/-- The external collaborators: overlay list and display context. -/
structure Env where
  overlayList : List Overlay
  orderedOverlays : List Overlay
  displays : Overlay → Option Display
  bounds : Bounds

/-- The per-task external state: GL context availability and the
GLObject factory (`globject.createGLObject`). -/
structure TaskEnv where
  ctxOK : Bool
  factory : Overlay → Option GLObj

/-- `Refresh()`: issue one redraw request. -/
def Canvas.refresh (c : Canvas) : Canvas := { c with refreshCount := c.refreshCount + 1 }

/-- Property-change notification on the canvas's own opts: the canvas
subscribed `self.Refresh` for the properties in `subscribedOptsProps`,
so a change fires `Refresh` exactly when a listener is present. -/
def notifyOpts (c : Canvas) (prop : String) : Canvas :=
  if Listener.optsL prop ∈ c.listeners then c.refresh else c

/-- The listener set built by `__init__`. -/
def initListeners : List Listener :=
  [Listener.overlaysL, Listener.boundsL,
   Listener.optsL "pos", Listener.optsL "showCursor",
   Listener.optsL "cursorColour", Listener.optsL "bgColour",
   Listener.optsL "showLegend", Listener.optsL "occlusion",
   Listener.optsL "zoom", Listener.optsL "offset", Listener.optsL "rotation"]

/-- `Scene3DCanvas.__init__`: empty registry, identity view and
projection matrices, the listener set above. -/
def initCanvas (o : Opts) (w h : ℕ) : Canvas :=
  { alive := true
    opts := o
    glObjects := []
    listeners := initListeners
    tasks := []
    refreshCount := 0
    width := w
    height := h
    viewMat := 1
    projMat := 1
    viewOffset := 1
    viewScale := 1
    viewRotate := 1
    viewCamera := 1
    resetLight := true }

/-- Dict lookup `self.__glObjects.get(overlay, None)`. -/
def lookupOvl : List (Overlay × Option GLObj) → Overlay → Option (Option GLObj)
  | [], _ => none
  | (k, v) :: t, o => if k = o then some v else lookupOvl t o

/-- Dict removal `self.__glObjects.pop(overlay, ...)` (list part). -/
def popOvl : List (Overlay × Option GLObj) → Overlay → List (Overlay × Option GLObj)
  | [], _ => []
  | (k, v) :: t, o => if k = o then t else (k, v) :: popOvl t o

/-- Dict update `self.__glObjects[overlay] = globj` for an existing key. -/
def setOvl : List (Overlay × Option GLObj) → Overlay → Option GLObj →
    List (Overlay × Option GLObj)
  | [], _, _ => []
  | (k, v) :: t, o, g =>
    if k = o then (k, g) :: setOvl t o g else (k, v) :: setOvl t o g

/-- The renderable `Display.overlayType` values checked by
`__genGLObject`. -/
def renderableTypes : List String := ["volume", "mesh", "giftimesh"]

/-- `Scene3DCanvas.__genGLObject`: returns `False` (and no mutation) if
an entry already exists or the overlay type is not renderable; otherwise
inserts the pending sentinel, queues the deferred `create` task, and
returns `True`. `none` models `InvalidOverlayError` escaping from
`getDisplay`. -/
def genGLObject (env : Env) (c : Canvas) (o : Overlay) : Option (Bool × Canvas) :=
  if (lookupOvl c.glObjects o).isSome then some (false, c)
  else
    match env.displays o with
    | none => none
    | some d =>
      if d.overlayType ∈ renderableTypes then
        some (true, { c with glObjects := c.glObjects ++ [(o, none)],
                             tasks := c.tasks ++ [o] })
      else some (false, c)

/-- `Scene3DCanvas.__registerOverlay`: no-op unless the overlay is a
`TriangleMesh` or an `Image`; on successful GLObject scheduling, also
subscribes the `enabled` and `overlayType` display listeners. -/
def registerOverlay (env : Env) (c : Canvas) (o : Overlay) : Option Canvas :=
  if o.cls = OverlayClass.otherClass then some c
  else
    match env.displays o with
    | none => none
    | some _ =>
      match genGLObject env c o with
      | none => none
      | some (false, c') => some c'
      | some (true, c') =>
        some { c' with listeners :=
          c'.listeners ++ [Listener.displayEnabled o, Listener.displayType o] }

/-- The `try/except` block of `__deregisterOverlay`: remove the
`overlayType` and `enabled` display listeners, tolerating an
invalidated display record (`InvalidOverlayError` caught and ignored). -/
def eraseDisplayListeners (env : Env) (c : Canvas) (o : Overlay) : List Listener :=
  match env.displays o with
  | none => c.listeners
  | some _ => (c.listeners.erase (Listener.displayType o)).erase (Listener.displayEnabled o)

/-- `Scene3DCanvas.__deregisterOverlay`: removes the display listeners,
pops the registry entry and tears the GLObject down. A pending entry is
the `False` sentinel, on which `globj.deregister` raises
`AttributeError` (modelled as `none`). -/
def deregisterOverlay (env : Env) (c : Canvas) (o : Overlay) : Option Canvas :=
  match lookupOvl c.glObjects o with
  | none => some { c with listeners := eraseDisplayListeners env c o }
  | some none => none
  | some (some _) =>
    some { c with listeners := (eraseDisplayListeners env c o).erase (Listener.globjRegister o),
                  glObjects := popOvl c.glObjects o }

/-- Deregister a list of overlays in order, propagating exceptions. -/
def deregisterList (env : Env) : List Overlay → Canvas → Option Canvas
  | [], c => some c
  | o :: rest, c =>
    match deregisterOverlay env c o with
    | none => none
    | some c' => deregisterList env rest c'

/-- `Scene3DCanvas.destroy`: removes the overlay-list and bounds
listeners, deregisters every overlay in the registry, then drops the
references (modelled by `alive := false`). The opts property listeners
added in `__init__` are never removed. -/
def destroy (env : Env) (c : Canvas) : Option Canvas :=
  let c1 := { c with listeners := (c.listeners.erase Listener.overlaysL).erase Listener.boundsL }
  match deregisterList env (c1.glObjects.map Prod.fst) c1 with
  | none => none
  | some c2 => some { c2 with alive := false }

/-- The deferred `create` closure scheduled by `__genGLObject`:
re-validates liveness and entry presence, acquires the GL context
(popping the entry on failure), invokes the factory, and on success
stores the result and registers the redraw callback. -/
def runCreate (tenv : TaskEnv) (c : Canvas) (o : Overlay) : Canvas :=
  if ¬ c.alive then c
  else if (lookupOvl c.glObjects o).isNone then c
  else if ¬ tenv.ctxOK then { c with glObjects := popOvl c.glObjects o }
  else
    match tenv.factory o with
    | none => c
    | some g => { c with glObjects := setOvl c.glObjects o (some g),
                         listeners := c.listeners ++ [Listener.globjRegister o] }

/-- The cooperative scheduler running the oldest queued `create` task. -/
def runNextTask (tenv : TaskEnv) (c : Canvas) : Canvas :=
  match c.tasks with
  | [] => c
  | o :: rest => runCreate tenv { c with tasks := rest } o

/-- Register every listed overlay that has no registry entry
(second loop of `__overlayListChanged`). -/
def registerMissing (env : Env) : List Overlay → Canvas → Option Canvas
  | [], c => some c
  | o :: rest, c =>
    if (lookupOvl c.glObjects o).isSome then registerMissing env rest c
    else
      match registerOverlay env c o with
      | none => none
      | some c' => registerMissing env rest c'

/-- `Scene3DCanvas.__overlayListChanged`: deregister overlays no longer
in the overlay list, then register newly added ones. Issues no
`Refresh` itself. -/
def overlayListChanged (env : Env) (c : Canvas) : Option Canvas :=
  let stale := (c.glObjects.map Prod.fst).filter fun o => !(env.overlayList.contains o)
  match deregisterList env stale c with
  | none => none
  | some c1 => registerMissing env env.overlayList c1

/-- `Scene3DCanvas.defaultLightPos`: reset `lightPos` to the bounds
centre offset by `[xlen, ylen, 0]`; the property change is dispatched
through the opts listeners (none is subscribed for `lightPos`). -/
def defaultLightPos (env : Env) (c : Canvas) : Canvas :=
  let b := env.bounds
  let lp : Vec3 := ![b.centre 0 + b.xlen, b.centre 1 + b.ylen, b.centre 2]
  notifyOpts { c with opts := { c.opts with lightPos := lp } } "lightPos"

/-- `Scene3DCanvas.__displayBoundsChanged`: optionally reset the light
position, then `Refresh`. -/
def displayBoundsChanged (env : Env) (c : Canvas) : Canvas :=
  (if c.resetLight then defaultLightPos env c else c).refresh

/-- `Scene3DCanvas.__overlayTypeChanged`: pop and destroy any existing
GLObject (the `False` sentinel raises, as in `__deregisterOverlay`),
regenerate one for the new type, then `Refresh`. -/
def overlayTypeChanged (env : Env) (c : Canvas) (o : Overlay) : Option Canvas :=
  match lookupOvl c.glObjects o with
  | some none => none
  | some (some _) =>
    let c1 := { c with glObjects := popOvl c.glObjects o,
                       listeners := c.listeners.erase (Listener.globjRegister o) }
    match genGLObject env c1 o with
    | none => none
    | some (_, c2) => some c2.refresh
  | none =>
    match genGLObject env c o with
    | none => none
    | some (_, c2) => some c2.refresh

def OverlayClass.isMesh : OverlayClass → Bool
  | OverlayClass.triangleMesh => true
  | _ => false

def OverlayClass.isImage : OverlayClass → Bool
  | OverlayClass.image => true
  | _ => false

/-- `surfs = [o for o in overlays if isinstance(o, fslmesh.TriangleMesh)]` -/
def surfsOf (l : List Overlay) : List Overlay := l.filter fun o => o.cls.isMesh

/-- `vols = [o for o in overlays if isinstance(o, fslimage.Image)]` -/
def volsOf (l : List Overlay) : List Overlay := l.filter fun o => o.cls.isImage

/-- `other = [o for o in overlays if o not in surfs and o not in vols]` -/
def othersOf (l : List Overlay) : List Overlay :=
  l.filter fun o => !((surfsOf l).contains o) && !((volsOf l).contains o)

/-- The draw order decided by `getGLObjects` from the occlusion flag. -/
def ovlOrderOf (occl : Bool) (l : List Overlay) : List Overlay :=
  if occl then surfsOf l ++ volsOf l ++ othersOf l
  else volsOf l ++ surfsOf l ++ othersOf l

/-- The loop of `getGLObjects`: absent entries are registered (and not
returned), pending entries are skipped, ready entries are accumulated. -/
def getGLLoop (env : Env) :
    List Overlay → Canvas → List Overlay → List GLObj →
    Option (List Overlay × List GLObj × Canvas)
  | [], c, accO, accG => some (accO, accG, c)
  | o :: rest, c, accO, accG =>
    match lookupOvl c.glObjects o with
    | none =>
      match registerOverlay env c o with
      | none => none
      | some c' => getGLLoop env rest c' accO accG
    | some none => getGLLoop env rest c accO accG
    | some (some g) => getGLLoop env rest c (accO ++ [o]) (accG ++ [g])

/-- `Scene3DCanvas.getGLObjects`: partition the ordered overlays by
class, pick the order from the occlusion flag, then run the loop. -/
def getGLObjects (env : Env) (c : Canvas) :
    Option (List Overlay × List GLObj × Canvas) :=
  getGLLoop env (ovlOrderOf c.opts.occlusion env.orderedOverlays) c [] []

/-- Whether the registry holds a ready entry for the overlay. -/
def readyIn (c : Canvas) (o : Overlay) : Bool :=
  match lookupOvl c.glObjects o with
  | some (some _) => true
  | _ => false

/-- The ready GLObject for an overlay, when there is one. -/
def readyObj (c : Canvas) (o : Overlay) : Option GLObj :=
  match lookupOvl c.glObjects o with
  | some (some g) => some g
  | _ => none

/-- The registry's key list. -/
def regKeys (c : Canvas) : List Overlay := c.glObjects.map Prod.fst

/-- `Scene3DCanvas.__genViewMatrix` component matrices:
(offset, scale, camera, rotate). -/
def genViewComponents (env : Env) (c : Canvas) : Mat4 × Mat4 × Mat4 × Mat4 :=
  let b := env.bounds
  let centre := b.centre
  let s := c.opts.zoom / 100
  let scale := scaleOffsetXform ![s, s, s] ![0, 0, 0]
  let rotate := rotMatToAffine c.opts.rotation centre
  let p := adjust b.xlen b.ylen (c.width : ℚ) (c.height : ℚ)
  let offM := scaleOffsetXform ![1, 1, 1]
    ![p.1 * c.opts.offset.1 / 2, p.2 * c.opts.offset.2 / 2, 0]
  let eye : Vec3 := ![centre 0, centre 1 + 1, centre 2]
  let camera := lookAt eye centre ![0, 0, 1]
  (offM, scale, camera, rotate)

/-- `Scene3DCanvas.__genViewMatrix`: store the component matrices and
their composition `transform.concat(offset, scale, camera, rotate)`. -/
def genViewMatrix (env : Env) (c : Canvas) : Canvas :=
  let comps := genViewComponents env c
  { c with viewOffset := comps.1
           viewScale := comps.2.1
           viewCamera := comps.2.2.1
           viewRotate := comps.2.2.2
           viewMat := comps.1 * comps.2.1 * comps.2.2.1 * comps.2.2.2 }

/-- `Scene3DCanvas.__setViewport`: fails on a zero-sized viewport or on
bounds degenerate in more than one axis; otherwise recomputes the view
and projection matrices. -/
def setViewport (env : Env) (c : Canvas) : Canvas × Bool :=
  let b := env.bounds
  if c.width = 0 ∨ c.height = 0 then (c, false)
  else if 1 < degenCount b then (c, false)
  else
    let c1 := genViewMatrix env c
    let pm := ortho ![b.xlo, b.ylo, b.zlo] ![b.xhi, b.yhi, b.zhi] c.width c.height (c.opts.zoom / 100)
    ({ c1 with projMat := pm }, true)

/-- `Scene3DCanvas.canvasToWorld`: invert the pixel-to-viewport mapping
(same aspect-correct `adjust` as the view computation), place the point
at depth `-1` (the camera's eye offset), and apply the inverse of the
cached view matrix. -/
def canvasToWorld (env : Env) (c : Canvas) (xpos ypos : ℚ) : Vec3 :=
  let b := env.bounds
  let p := adjust b.xlen b.ylen (c.width : ℚ) (c.height : ℚ)
  let x := p.1 * (xpos / (c.width : ℚ)) - p.1 / 2
  let y := p.2 * (ypos / (c.height : ℚ)) - p.2 / 2
  affineApply (invert4 c.viewMat) ![x, y, -1]

/-- Modelled from the spec: the canvas-pixel projection of a world point
under the cached view state (the orthographic viewport mapping of
`gl.routines.show3D`/`ortho`, which is not under `src/`). It is the
forward direction of the pixel-to-viewport mapping that
`canvasToWorld` inverts. -/
def pixelProject (env : Env) (c : Canvas) (p : Vec3) : ℚ × ℚ :=
  let b := env.bounds
  let a := adjust b.xlen b.ylen (c.width : ℚ) (c.height : ℚ)
  let v := affineApply c.viewMat p
  ((c.width : ℚ) * (v 0 + a.1 / 2) / a.1,
   (c.height : ℚ) * (v 1 + a.2 / 2) / a.2)

/-- Observable effects of one `_draw` call. -/
inductive DrawEvent where
  | clearEvt (colour : ℕ)
  | drawOverlay (o : Overlay)
  | cursorEvt
  | legendEvt
deriving DecidableEq

/-- The per-overlay loop of `_draw`: skip not-ready adapters and
disabled displays, draw the rest. -/
def drawObjectsLoop (env : Env) :
    List (Overlay × GLObj) → List DrawEvent → Option (List DrawEvent)
  | [], acc => some acc
  | (o, g) :: rest, acc =>
    match env.displays o with
    | none => none
    | some d =>
      if ¬ g.isReady then drawObjectsLoop env rest acc
      else if ¬ d.enabled then drawObjectsLoop env rest acc
      else drawObjectsLoop env rest (acc ++ [DrawEvent.drawOverlay o])

/-- `Scene3DCanvas._draw`: context check, background clear, viewport
configuration (aborting the frame on failure), then the overlay loop
and the optional cursor and legend. -/
def draw (env : Env) (tenv : TaskEnv) (c : Canvas) :
    Option (Canvas × List DrawEvent) :=
  if ¬ tenv.ctxOK then some (c, [])
  else
    let ev0 := [DrawEvent.clearEvt c.opts.bgColour]
    let vp := setViewport env c
    if ¬ vp.2 then some (vp.1, ev0)
    else
      match getGLObjects env vp.1 with
      | none => none
      | some (ovls, globjs, c2) =>
        if ovls.length = 0 then some (c2, ev0)
        else
          match drawObjectsLoop env (ovls.zip globjs) [] with
          | none => none
          | some evs =>
            some (c2, ev0 ++ evs ++
              (if c2.opts.showCursor then [DrawEvent.cursorEvt] else []) ++
              (if c2.opts.showLegend then [DrawEvent.legendEvt] else []))

/-- One state transition of the canvas: any of its entry points. -/
inductive Step : Canvas → Canvas → Prop
  | register : ∀ env o c c', registerOverlay env c o = some c' → Step c c'
  | deregister : ∀ env o c c', deregisterOverlay env c o = some c' → Step c c'
  | listChanged : ∀ env c c', overlayListChanged env c = some c' → Step c c'
  | typeChanged : ∀ env o c c', overlayTypeChanged env c o = some c' → Step c c'
  | boundsChanged : ∀ env c, Step c (displayBoundsChanged env c)
  | optsChanged : ∀ p c, Step c (notifyOpts c p)
  | glObjectsCall : ∀ env c r, getGLObjects env c = some r → Step c r.2.2
  | taskRun : ∀ tenv c, Step c (runNextTask tenv c)
  | drawCall : ∀ env tenv c r, draw env tenv c = some r → Step c r.1
  | destroyCall : ∀ env c c', destroy env c = some c' → Step c c'

/-- States reachable from a freshly constructed canvas. -/
inductive Reachable : Canvas → Prop
  | init : ∀ o w h, Reachable (initCanvas o w h)
  | step : ∀ {c c'}, Reachable c → Step c c' → Reachable c'

/-! Concrete test fixtures used by the witnesses and counterexamples. -/

/-- A base opts record: zoom 100, no offset, identity rotation,
occlusion on. -/
def opts0 : Opts :=
  { occlusion := true
    zoom := 100
    offset := (0, 0)
    rotation := 1
    pos := ![0, 0, 0]
    showCursor := false
    showLegend := false
    bgColour := 0
    cursorColour := 0
    legendColour := 0
    lightPos := ![0, 0, 0] }

/-- Same opts with occlusion off. -/
def optsOff : Opts := { opts0 with occlusion := false }

/-- The `[0,2]^3` bounds box. -/
def b0 : Bounds := { xlo := 0, xhi := 2, ylo := 0, yhi := 2, zlo := 0, zhi := 2 }

/-- Bounds degenerate in two axes (x and y are flat). -/
def bDegen : Bounds := { xlo := 0, xhi := 0, ylo := 0, yhi := 0, zlo := 0, zhi := 2 }

/-- Bounds degenerate in exactly one axis (z is flat). -/
def bFlat : Bounds := { xlo := 0, xhi := 2, ylo := 0, yhi := 2, zlo := 5, zhi := 5 }

/-- A volume overlay. -/
def V1 : Overlay := { oid := 1, cls := OverlayClass.image }

/-- A surface overlay. -/
def S1 : Overlay := { oid := 2, cls := OverlayClass.triangleMesh }

/-- An overlay of some other class. -/
def O1 : Overlay := { oid := 3, cls := OverlayClass.otherClass }

def g1 : GLObj := { gid := 1, isReady := true }

def g2 : GLObj := { gid := 2, isReady := true }

def g3 : GLObj := { gid := 3, isReady := true }

/-- Display records for the three fixture overlays. -/
def displays0 : Overlay → Option Display := fun o =>
  if o.oid = 1 then some { enabled := true, overlayType := "volume" }
  else if o.oid = 2 then some { enabled := true, overlayType := "mesh" }
  else if o.oid = 3 then some { enabled := true, overlayType := "label" }
  else if o.oid = 4 then some { enabled := true, overlayType := "label" }
  else none

/-- The display record of the volume fixture. -/
def dVol : Display := { enabled := true, overlayType := "volume" }

/-- A display record with an unrenderable overlay type. -/
def dLabel : Display := { enabled := true, overlayType := "label" }

/-- A mesh-class overlay whose declared overlay type is unrenderable. -/
def S2 : Overlay := { oid := 4, cls := OverlayClass.triangleMesh }

/-- Environment with the three overlays inserted in order V1, S1, O1. -/
def env3 : Env :=
  { overlayList := [V1, S1, O1]
    orderedOverlays := [V1, S1, O1]
    displays := displays0
    bounds := b0 }

/-- Environment holding only the volume overlay. -/
def envV : Env :=
  { overlayList := [V1]
    orderedOverlays := [V1]
    displays := displays0
    bounds := b0 }

/-- Environment with the two-axis-degenerate bounds. -/
def envDeg : Env := { env3 with bounds := bDegen }

/-- Environment with the one-axis-degenerate bounds. -/
def envFlat : Env := { env3 with bounds := bFlat }

/-- A 100x100 canvas fresh from `__init__`. -/
def c0 : Canvas := initCanvas opts0 100 100

/-- The canvas after a successful `__setViewport`. -/
def c0view : Canvas := (setViewport envV c0).1

/-- The view matrix `__genViewMatrix` produces for `c0` over `b0`:
the fixture camera (zoom 100, no offset, identity rotation). -/
def M0 : Mat4 :=
  Matrix.of ![![-1, 0, 0, 1], ![0, 0, 1, -1], ![0, 1, 0, -2], ![0, 0, 0, 1]]

/-- The inverse of `M0`. -/
def N0 : Mat4 :=
  Matrix.of ![![-1, 0, 0, 1], ![0, 0, 1, 2], ![0, 1, 0, 1], ![0, 0, 0, 1]]

/-- Canvas with ready GLObjects for all three fixture overlays
(the registry state the C1 instance quantifies over). -/
def c3on : Canvas :=
  { c0 with glObjects := [(V1, some g1), (S1, some g2), (O1, some g3)] }

/-- The same registry under occlusion off. -/
def c3off : Canvas := { c3on with opts := optsOff }

/-- Canvas with a single pending entry for the volume overlay. -/
def cPend : Canvas :=
  { c0 with glObjects := [(V1, none)], tasks := [V1],
            listeners := initListeners ++ [Listener.displayEnabled V1, Listener.displayType V1] }

/-- Canvas with a single ready entry for the volume overlay. -/
def cReady : Canvas :=
  { c0 with glObjects := [(V1, some g1)],
            listeners := initListeners ++
              [Listener.displayEnabled V1, Listener.displayType V1,
               Listener.globjRegister V1] }

/-- Task environment whose factory always succeeds with `g1`. -/
def tenvOK : TaskEnv := { ctxOK := true, factory := fun _ => some g1 }

/-- Task environment with the GL context unavailable. -/
def tenvNoCtx : TaskEnv := { ctxOK := false, factory := fun _ => some g1 }

/-- Task environment whose factory returns `None`. -/
def tenvNoneF : TaskEnv := { ctxOK := true, factory := fun _ => none }

/-- The state `destroy` leaves `cReady` in. -/
def cReadyPost : Canvas := (destroy envV cReady).getD cReady

/-- The state `destroy` leaves a fresh canvas in. -/
def c0post : Canvas := (destroy envV c0).getD c0

/-- Opts exercising a non-trivial zoom, offset and rotation (rotation by
90 degrees about z), used to show the composition order matters. -/
def optsR : Opts :=
  { opts0 with zoom := 200, offset := (1, 0),
               rotation := Matrix.of ![![0, -1, 0], ![1, 0, 0], ![0, 0, 1]] }

/-- Canvas carrying `optsR`. -/
def cR : Canvas := initCanvas optsR 100 100

/-- The state after `cPend`'s construction task succeeds. -/
def cDone : Canvas :=
  { cPend with glObjects := [(V1, some g1)],
               listeners := cPend.listeners ++ [Listener.globjRegister V1] }

/-- The state after `cPend`'s task fails on the GL context and the next
`getGLObjects` call re-registers the overlay. -/
def cRetry : Canvas :=
  { cPend with glObjects := [(V1, none)], tasks := [V1, V1],
               listeners := cPend.listeners ++
                 [Listener.displayEnabled V1, Listener.displayType V1] }

/-! Association-list lemmas for the registry. -/

lemma lookupOvl_eq_none {r : List (Overlay × Option GLObj)} {o : Overlay} :
    lookupOvl r o = none ↔ o ∉ r.map Prod.fst := by
  induction r with
  | nil => simp [lookupOvl]
  | cons kv t ih =>
    obtain ⟨k, v⟩ := kv
    by_cases h : k = o
    · subst h
      simp [lookupOvl]
    · simp [lookupOvl, h, ih, Ne.symm h]

lemma lookupOvl_append_left {r s : List (Overlay × Option GLObj)} {o : Overlay}
    (h : (lookupOvl r o).isSome) : lookupOvl (r ++ s) o = lookupOvl r o := by
  induction r with
  | nil => simp [lookupOvl] at h
  | cons kv t ih =>
    obtain ⟨k, v⟩ := kv
    by_cases hk : k = o
    · simp [lookupOvl, hk]
    · simp only [lookupOvl, hk, if_false, List.cons_append] at h ⊢
      exact ih h

lemma lookupOvl_append_right {r : List (Overlay × Option GLObj)} {o k : Overlay}
    {v : Option GLObj} (h : lookupOvl r o = none) :
    lookupOvl (r ++ [(k, v)]) o = if k = o then some v else none := by
  induction r with
  | nil => simp [lookupOvl]
  | cons kv t ih =>
    obtain ⟨k', v'⟩ := kv
    by_cases hk : k' = o
    · simp [lookupOvl, hk] at h
    · simp only [lookupOvl, hk, if_false, List.cons_append] at h ⊢
      exact ih h

lemma popOvl_sublist (r : List (Overlay × Option GLObj)) (o : Overlay) :
    (popOvl r o).Sublist r := by
  induction r with
  | nil => simp [popOvl]
  | cons kv t ih =>
    obtain ⟨k, v⟩ := kv
    by_cases hk : k = o
    · simp only [popOvl, hk, if_true]
      exact List.sublist_cons_self _ _
    · simp only [popOvl, hk, if_false]
      exact List.Sublist.cons₂ _ ih

lemma lookupOvl_popOvl_self {r : List (Overlay × Option GLObj)} {o : Overlay}
    (h : (r.map Prod.fst).Nodup) : lookupOvl (popOvl r o) o = none := by
  induction r with
  | nil => simp [popOvl, lookupOvl]
  | cons kv t ih =>
    obtain ⟨k, v⟩ := kv
    simp only [List.map_cons, List.nodup_cons] at h
    by_cases hk : k = o
    · subst hk
      simp only [popOvl, if_pos rfl]
      exact lookupOvl_eq_none.mpr h.1
    · simp only [popOvl, hk, if_false, lookupOvl]
      exact ih h.2

lemma lookupOvl_popOvl_ne {r : List (Overlay × Option GLObj)} {o k : Overlay}
    (h : k ≠ o) : lookupOvl (popOvl r o) k = lookupOvl r k := by
  induction r with
  | nil => simp [popOvl]
  | cons kv t ih =>
    obtain ⟨k', v'⟩ := kv
    by_cases hk : k' = o
    · have hkk : ¬ (k' = k) := fun hh => h (by rw [← hh]; exact hk)
      simp [popOvl, hk, lookupOvl, hkk, Ne.symm h]
    · by_cases hkk : k' = k <;> simp [popOvl, hk, lookupOvl, hkk, ih, h]

lemma setOvl_keys (r : List (Overlay × Option GLObj)) (o : Overlay) (g : Option GLObj) :
    (setOvl r o g).map Prod.fst = r.map Prod.fst := by
  induction r with
  | nil => simp [setOvl]
  | cons kv t ih =>
    obtain ⟨k, v⟩ := kv
    by_cases hk : k = o <;> simp [setOvl, hk, ih]

lemma lookupOvl_setOvl_self {r : List (Overlay × Option GLObj)} {o : Overlay}
    (g : Option GLObj) (h : (lookupOvl r o).isSome) :
    lookupOvl (setOvl r o g) o = some g := by
  induction r with
  | nil => simp [lookupOvl] at h
  | cons kv t ih =>
    obtain ⟨k, v⟩ := kv
    by_cases hk : k = o
    · simp [setOvl, lookupOvl, hk]
    · simp only [lookupOvl, hk, if_false] at h
      simp [setOvl, lookupOvl, hk, ih h]

lemma lookupOvl_setOvl_ne {r : List (Overlay × Option GLObj)} {o k : Overlay}
    (g : Option GLObj) (h : k ≠ o) :
    lookupOvl (setOvl r o g) k = lookupOvl r k := by
  induction r with
  | nil => simp [setOvl]
  | cons kv t ih =>
    obtain ⟨k', v'⟩ := kv
    by_cases hk : k' = o
    · have hkk : ¬ (k' = k) := fun hh => h (by rw [← hh]; exact hk)
      simp [setOvl, lookupOvl, hk, hkk, ih, Ne.symm h]
    · by_cases hkk : k' = k <;> simp [setOvl, lookupOvl, hk, hkk, ih, h]

/-! Shape lemmas for the registry operations. -/

/-- `__genGLObject` on an overlay with an existing entry returns `False`
without mutating anything. -/
lemma genGLObject_noop_of_entry {env : Env} {c : Canvas} {o : Overlay}
    (h1 : (lookupOvl c.glObjects o).isSome) :
    genGLObject env c o = some (false, c) := by
  unfold genGLObject
  rw [if_pos h1]

/-- What `__genGLObject` can do: nothing (returning `False`), or insert
the pending sentinel and queue the task (returning `True`). -/
lemma genGLObject_cases {env : Env} {c : Canvas} {o : Overlay} {b : Bool} {c' : Canvas}
    (h : genGLObject env c o = some (b, c')) :
    (b = false ∧ c' = c) ∨
    (b = true ∧ lookupOvl c.glObjects o = none ∧
      c' = { c with glObjects := c.glObjects ++ [(o, none)], tasks := c.tasks ++ [o] }) := by
  unfold genGLObject at h
  split at h
  · simp only [Option.some.injEq, Prod.mk.injEq] at h
    exact Or.inl ⟨h.1.symm, h.2.symm⟩
  · rename_i h1
    split at h
    · exact absurd h (by simp)
    · split at h
      · simp only [Option.some.injEq, Prod.mk.injEq] at h
        refine Or.inr ⟨h.1.symm, ?_, h.2.symm⟩
        cases h2 : lookupOvl c.glObjects o with
        | none => rfl
        | some v => exact absurd (by rw [h2]; rfl) h1
      · simp only [Option.some.injEq, Prod.mk.injEq] at h
        exact Or.inl ⟨h.1.symm, h.2.symm⟩

/-- What `__registerOverlay` can do: nothing, or insert the pending
sentinel, queue the task, and subscribe the two display listeners. -/
lemma registerOverlay_cases {env : Env} {c : Canvas} {o : Overlay} {c' : Canvas}
    (h : registerOverlay env c o = some c') :
    c' = c ∨
    (lookupOvl c.glObjects o = none ∧
      c' = { c with glObjects := c.glObjects ++ [(o, none)], tasks := c.tasks ++ [o],
                    listeners := c.listeners ++
                      [Listener.displayEnabled o, Listener.displayType o] }) := by
  unfold registerOverlay at h
  split at h
  · simp only [Option.some.injEq] at h
    exact Or.inl h.symm
  · split at h
    · exact absurd h (by simp)
    · cases hg : genGLObject env c o with
      | none => rw [hg] at h; exact absurd h (by simp)
      | some bc =>
        obtain ⟨b, c1⟩ := bc
        rw [hg] at h
        rcases genGLObject_cases hg with ⟨hb, hc1⟩ | ⟨hb, hlk, hc1⟩
        · subst hb; subst hc1
          simp only [Option.some.injEq] at h
          exact Or.inl h.symm
        · subst hb; subst hc1
          simp only [Option.some.injEq] at h
          exact Or.inr ⟨hlk, h.symm⟩

/-- `__registerOverlay` on an overlay that already has an entry leaves
the canvas untouched (given a valid display record). -/
lemma registerOverlay_noop_of_entry {env : Env} {c : Canvas} {o : Overlay}
    (h1 : (lookupOvl c.glObjects o).isSome) (h2 : (env.displays o).isSome) :
    registerOverlay env c o = some c := by
  unfold registerOverlay
  split
  · rfl
  · split
    · rename_i hd
      rw [hd] at h2
      exact absurd h2 (by simp)
    · rw [genGLObject_noop_of_entry h1]

/-- `__registerOverlay` on a renderable overlay with no entry inserts
the pending sentinel, queues the task and subscribes the listeners. -/
lemma registerOverlay_creates {env : Env} {c : Canvas} {o : Overlay} {d : Display}
    (h1 : lookupOvl c.glObjects o = none) (h2 : o.cls ≠ OverlayClass.otherClass)
    (h3 : env.displays o = some d) (h4 : d.overlayType ∈ renderableTypes) :
    registerOverlay env c o =
      some { c with glObjects := c.glObjects ++ [(o, none)], tasks := c.tasks ++ [o],
                    listeners := c.listeners ++
                      [Listener.displayEnabled o, Listener.displayType o] } := by
  have hg : genGLObject env c o =
      some (true, { c with glObjects := c.glObjects ++ [(o, none)], tasks := c.tasks ++ [o] }) := by
    unfold genGLObject
    rw [h1]
    simp only [Option.isSome_none, Bool.false_eq_true, if_false]
    rw [h3]
    exact if_pos h4
  unfold registerOverlay
  rw [if_neg h2, h3, hg]

/-- Registering never touches the other canvas fields. -/
lemma registerOverlay_shape {env : Env} {c : Canvas} {o : Overlay} {c' : Canvas}
    (h : registerOverlay env c o = some c') :
    ∃ gl ts ls, c' = { c with glObjects := gl, tasks := ts, listeners := ls } := by
  rcases registerOverlay_cases h with hc | ⟨_, hc⟩
  · exact ⟨c.glObjects, c.tasks, c.listeners, hc⟩
  · exact ⟨_, _, _, hc⟩

/-- Registering preserves every existing registry entry. -/
lemma registerOverlay_lookup_isSome {env : Env} {c : Canvas} {o k : Overlay} {c' : Canvas}
    (h : registerOverlay env c o = some c') (hk : (lookupOvl c.glObjects k).isSome) :
    lookupOvl c'.glObjects k = lookupOvl c.glObjects k := by
  rcases registerOverlay_cases h with hc | ⟨hlk, hc⟩
  · rw [hc]
  · subst hc
    exact lookupOvl_append_left hk

/-- Registering preserves readiness everywhere. -/
lemma registerOverlay_readyIn {env : Env} {c : Canvas} {o : Overlay} {c' : Canvas}
    (h : registerOverlay env c o = some c') : readyIn c' = readyIn c := by
  funext k
  rcases registerOverlay_cases h with hc | ⟨hlk, hc⟩
  · rw [hc]
  · subst hc
    unfold readyIn
    cases h2 : lookupOvl c.glObjects k with
    | some v => rw [lookupOvl_append_left (by rw [h2]; rfl), h2]
    | none =>
      have h3 := lookupOvl_append_right (k := o) (v := (none : Option GLObj)) h2
      simp only [h3, h2]
      by_cases ho : o = k <;> simp [ho]

/-- Registering preserves the ready GLObject map everywhere. -/
lemma registerOverlay_readyObj {env : Env} {c : Canvas} {o : Overlay} {c' : Canvas}
    (h : registerOverlay env c o = some c') : readyObj c' = readyObj c := by
  funext k
  rcases registerOverlay_cases h with hc | ⟨hlk, hc⟩
  · rw [hc]
  · subst hc
    unfold readyObj
    cases h2 : lookupOvl c.glObjects k with
    | some v => rw [lookupOvl_append_left (by rw [h2]; rfl), h2]
    | none =>
      have h3 := lookupOvl_append_right (k := o) (v := (none : Option GLObj)) h2
      simp only [h3, h2]
      by_cases ho : o = k <;> simp [ho]

/-- Registering preserves absent entries for other overlays. -/
lemma registerOverlay_lookup_none_ne {env : Env} {c : Canvas} {o k : Overlay} {c' : Canvas}
    (h : registerOverlay env c k = some c') (hne : k ≠ o)
    (h0 : lookupOvl c.glObjects o = none) : lookupOvl c'.glObjects o = none := by
  rcases registerOverlay_cases h with hc | ⟨hlk, hc⟩
  · rw [hc]; exact h0
  · subst hc
    have h3 := lookupOvl_append_right (k := k) (v := (none : Option GLObj)) h0
    simp only [h3, if_neg hne]

/-! Deregistration and teardown lemmas. -/

lemma eraseDisplayListeners_subset (env : Env) (c : Canvas) (o : Overlay) :
    eraseDisplayListeners env c o ⊆ c.listeners := by
  unfold eraseDisplayListeners
  split
  · exact fun x hx => hx
  · exact fun x hx => List.mem_of_mem_erase (List.mem_of_mem_erase hx)

lemma eraseDisplayListeners_nodup {env : Env} {c : Canvas} {o : Overlay}
    (h : c.listeners.Nodup) : (eraseDisplayListeners env c o).Nodup := by
  unfold eraseDisplayListeners
  split
  · exact h
  · exact (h.erase _).erase _

/-- What a successful `__deregisterOverlay` can do: remove listeners
and possibly pop the entry; it never adds anything. -/
lemma deregisterOverlay_spec {env : Env} {c : Canvas} {o : Overlay} {c' : Canvas}
    (h : deregisterOverlay env c o = some c') :
    (c'.glObjects = c.glObjects ∨ c'.glObjects = popOvl c.glObjects o) ∧
    c'.listeners ⊆ c.listeners ∧
    c'.alive = c.alive ∧ c'.tasks = c.tasks ∧ c'.refreshCount = c.refreshCount ∧
    c'.opts = c.opts ∧ c'.width = c.width ∧ c'.height = c.height := by
  unfold deregisterOverlay at h
  split at h
  · simp only [Option.some.injEq] at h
    subst h
    exact ⟨Or.inl rfl, eraseDisplayListeners_subset env c o, rfl, rfl, rfl, rfl, rfl, rfl⟩
  · exact absurd h (by simp)
  · simp only [Option.some.injEq] at h
    subst h
    refine ⟨Or.inr rfl, ?_, rfl, rfl, rfl, rfl, rfl, rfl⟩
    exact fun x hx => eraseDisplayListeners_subset env c o (List.mem_of_mem_erase hx)

/-- `deregisterList` only erases listeners and pops entries. -/
lemma deregisterList_spec {env : Env} :
    ∀ (l : List Overlay) (c c' : Canvas), deregisterList env l c = some c' →
      c'.listeners ⊆ c.listeners ∧
      c'.alive = c.alive ∧ c'.tasks = c.tasks ∧ c'.refreshCount = c.refreshCount ∧
      c'.opts = c.opts ∧ c'.width = c.width ∧ c'.height = c.height := by
  intro l
  induction l with
  | nil =>
    intro c c' h
    simp only [deregisterList, Option.some.injEq] at h
    subst h
    exact ⟨fun x hx => hx, rfl, rfl, rfl, rfl, rfl, rfl⟩
  | cons o rest ih =>
    intro c c' h
    simp only [deregisterList] at h
    cases hd : deregisterOverlay env c o with
    | none => rw [hd] at h; exact absurd h (by simp)
    | some c1 =>
      rw [hd] at h
      obtain ⟨_, hsub1, ha1, ht1, hr1, ho1, hw1, hh1⟩ := deregisterOverlay_spec hd
      obtain ⟨hsub2, ha2, ht2, hr2, ho2, hw2, hh2⟩ := ih c1 c' h
      exact ⟨fun x hx => hsub1 (hsub2 hx), ha2.trans ha1, ht2.trans ht1,
        hr2.trans hr1, ho2.trans ho1, hw2.trans hw1, hh2.trans hh1⟩

/-- The exact effect of deregistering every registry key in order, as
`destroy` does: the registry empties, and (under listener uniqueness)
the display and GLObject listeners of every registered overlay are
gone. A pending entry makes the whole teardown raise, so success means
every entry was ready. -/
lemma deregisterList_exact {env : Env} :
    ∀ (l : List Overlay) (c c' : Canvas),
      c.glObjects.map Prod.fst = l →
      deregisterList env l c = some c' →
      c'.glObjects = [] ∧
      (c.listeners.Nodup →
        c'.listeners.Nodup ∧
        ∀ o ∈ l,
          ((env.displays o).isSome →
            Listener.displayEnabled o ∉ c'.listeners ∧
            Listener.displayType o ∉ c'.listeners) ∧
          Listener.globjRegister o ∉ c'.listeners) := by
  intro l
  induction l with
  | nil =>
    intro c c' hkeys h
    simp only [deregisterList, Option.some.injEq] at h
    subst h
    refine ⟨List.map_eq_nil_iff.mp hkeys, fun hnd => ⟨hnd, ?_⟩⟩
    intro o ho
    exact absurd ho (List.not_mem_nil o)
  | cons o rest ih =>
    intro c c' hkeys h
    cases hgl : c.glObjects with
    | nil => rw [hgl] at hkeys; exact absurd hkeys (by simp)
    | cons kv r =>
      obtain ⟨k, v⟩ := kv
      rw [hgl] at hkeys
      simp only [List.map_cons, List.cons.injEq] at hkeys
      obtain ⟨hk, hrest⟩ := hkeys
      rw [hk] at hgl
      simp only [deregisterList] at h
      cases hd : deregisterOverlay env c o with
      | none => rw [hd] at h; exact absurd h (by simp)
      | some c1 =>
        rw [hd] at h
        have hlk : lookupOvl c.glObjects o = some v := by
          rw [hgl]
          simp [lookupOvl]
        -- the head entry must be ready, or deregistration raises
        cases hv : v with
        | none =>
          exfalso
          unfold deregisterOverlay at hd
          rw [hlk, hv] at hd
          exact absurd hd (by simp)
        | some g =>
          subst hv
          have hpop : popOvl c.glObjects o = r := by
            rw [hgl]
            simp [popOvl]
          have hc1 : c1 = { c with
              listeners := (eraseDisplayListeners env c o).erase (Listener.globjRegister o),
              glObjects := r } := by
            unfold deregisterOverlay at hd
            rw [hlk] at hd
            simp only [Option.some.injEq] at hd
            rw [← hd, hpop]
          have hkeys1 : c1.glObjects.map Prod.fst = rest := by
            rw [hc1]
            exact hrest
          obtain ⟨hempty, hndpart⟩ := ih c1 c' hkeys1 h
          have hsub' : c'.listeners ⊆ c1.listeners := (deregisterList_spec rest c1 c' h).1
          refine ⟨hempty, fun hnd => ?_⟩
          have hnd1 : c1.listeners.Nodup := by
            rw [hc1]
            exact (eraseDisplayListeners_nodup hnd).erase _
          obtain ⟨hnd', hrest'⟩ := hndpart hnd1
          refine ⟨hnd', ?_⟩
          intro o' ho'
          rcases List.mem_cons.mp ho' with hoo | ho'rest
          · subst hoo
            constructor
            · intro hvalid
              cases hdisp : env.displays o' with
              | none => rw [hdisp] at hvalid; exact absurd hvalid (by simp)
              | some d =>
                have herase : eraseDisplayListeners env c o' =
                    (c.listeners.erase (Listener.displayType o')).erase
                      (Listener.displayEnabled o') := by
                  unfold eraseDisplayListeners
                  rw [hdisp]
                have hdE : Listener.displayEnabled o' ∉ c1.listeners := by
                  rw [hc1, herase]
                  intro hmem
                  have h2 := List.mem_of_mem_erase hmem
                  exact (hnd.erase _).not_mem_erase h2
                have hdT : Listener.displayType o' ∉ c1.listeners := by
                  rw [hc1, herase]
                  intro hmem
                  have h2 := List.mem_of_mem_erase (List.mem_of_mem_erase hmem)
                  exact hnd.not_mem_erase h2
                exact ⟨fun hmem => hdE (hsub' hmem), fun hmem => hdT (hsub' hmem)⟩
            · have hgR : Listener.globjRegister o' ∉ c1.listeners := by
                rw [hc1]
                exact (eraseDisplayListeners_nodup hnd).not_mem_erase
              exact fun hmem => hgR (hsub' hmem)
          · exact hrest' o' ho'rest

/-! Deferred-construction (`create`) lemmas. -/

/-- A `create` task firing on a destroyed canvas mutates nothing. -/
lemma runCreate_destroyed {tenv : TaskEnv} {c : Canvas} {o : Overlay}
    (h : c.alive = false) : runCreate tenv c o = c := by
  unfold runCreate
  rw [if_pos (by simp [h])]

/-- A `create` task firing after its entry was removed mutates nothing. -/
lemma runCreate_no_entry {tenv : TaskEnv} {c : Canvas} {o : Overlay}
    (h : lookupOvl c.glObjects o = none) (ha : c.alive = true) :
    runCreate tenv c o = c := by
  unfold runCreate
  rw [if_neg (by simp [ha]), if_pos (by simp [h])]

/-- A `create` task that cannot obtain the GL context pops the pending
entry. -/
lemma runCreate_noctx {tenv : TaskEnv} {c : Canvas} {o : Overlay}
    (ha : c.alive = true) (he : (lookupOvl c.glObjects o).isSome)
    (hc : tenv.ctxOK = false) :
    runCreate tenv c o = { c with glObjects := popOvl c.glObjects o } := by
  unfold runCreate
  rw [if_neg (by simp [ha]), if_neg (by simp [Option.isNone_iff_eq_none]; intro hn; rw [hn] at he; simp at he),
    if_pos (by simp [hc])]

/-- A `create` task whose factory returns `None` leaves the canvas
(including the pending sentinel) untouched. -/
lemma runCreate_factory_none {tenv : TaskEnv} {c : Canvas} {o : Overlay}
    (ha : c.alive = true) (he : (lookupOvl c.glObjects o).isSome)
    (hc : tenv.ctxOK = true) (hf : tenv.factory o = none) :
    runCreate tenv c o = c := by
  unfold runCreate
  rw [if_neg (by simp [ha]), if_neg (by simp [Option.isNone_iff_eq_none]; intro hn; rw [hn] at he; simp at he),
    if_neg (by simp [hc]), hf]

/-- A successful `create` task stores the new GLObject and registers
its redraw callback. -/
lemma runCreate_success {tenv : TaskEnv} {c : Canvas} {o : Overlay} {g : GLObj}
    (ha : c.alive = true) (he : (lookupOvl c.glObjects o).isSome)
    (hc : tenv.ctxOK = true) (hf : tenv.factory o = some g) :
    runCreate tenv c o = { c with glObjects := setOvl c.glObjects o (some g),
                                  listeners := c.listeners ++ [Listener.globjRegister o] } := by
  unfold runCreate
  rw [if_neg (by simp [ha]), if_neg (by simp [Option.isNone_iff_eq_none]; intro hn; rw [hn] at he; simp at he),
    if_neg (by simp [hc]), hf]

/-! The `getGLObjects` loop. -/

/-- Full specification of the `getGLObjects` loop: the returned
sequences are the accumulators extended with exactly the ready entries
of the traversed order (readiness judged against the entry state, which
the loop's lazy registrations never change), and the loop does not
touch anything except fresh pending entries, the task queue and the
display listeners. -/
lemma getGLLoop_spec {env : Env} :
    ∀ (l : List Overlay) (c : Canvas) (accO : List Overlay) (accG : List GLObj)
      (ovs : List Overlay) (gs : List GLObj) (c' : Canvas),
      getGLLoop env l c accO accG = some (ovs, gs, c') →
      ovs = accO ++ l.filter (fun o => readyIn c o) ∧
      gs = accG ++ l.filterMap (fun o => readyObj c o) ∧
      readyIn c' = readyIn c ∧
      (∀ k, (lookupOvl c.glObjects k).isSome →
        lookupOvl c'.glObjects k = lookupOvl c.glObjects k) ∧
      (∃ t, c'.tasks = c.tasks ++ t) ∧
      c'.alive = c.alive ∧ c'.refreshCount = c.refreshCount ∧ c'.opts = c.opts ∧
      c'.width = c.width ∧ c'.height = c.height := by
  intro l
  induction l with
  | nil =>
    intro c accO accG ovs gs c' h
    simp only [getGLLoop, Option.some.injEq, Prod.mk.injEq] at h
    obtain ⟨h1, h2, h3⟩ := h
    subst h1; subst h2; subst h3
    exact ⟨by simp, by simp, rfl, fun k hk => rfl, ⟨[], by simp⟩, rfl, rfl, rfl, rfl, rfl⟩
  | cons o rest ih =>
    intro c accO accG ovs gs c' h
    simp only [getGLLoop] at h
    cases hlk : lookupOvl c.glObjects o with
    | none =>
      rw [hlk] at h
      cases hr : registerOverlay env c o with
      | none => rw [hr] at h; exact absurd h (by simp)
      | some c1 =>
        rw [hr] at h
        obtain ⟨ho1, ho2, ho3, ho4, ⟨t1, ho5⟩, ho6, ho7, ho8, ho9, ho10⟩ :=
          ih c1 accO accG ovs gs c' h
        have hready : readyIn c1 = readyIn c := registerOverlay_readyIn hr
        have hobj : readyObj c1 = readyObj c := registerOverlay_readyObj hr
        have hro : readyIn c o = false := by unfold readyIn; rw [hlk]
        have hroo : readyObj c o = none := by unfold readyObj; rw [hlk]
        obtain ⟨gl1, ts1, ls1, hshape⟩ := registerOverlay_shape hr
        refine ⟨?_, ?_, ?_, ?_, ?_, ?_, ?_, ?_, ?_, ?_⟩
        · rw [ho1, hready, List.filter_cons_of_neg (by simp [hro])]
        · rw [ho2, hobj, List.filterMap_cons_none (by simp [hroo])]
        · rw [ho3, hready]
        · intro k hk
          have h1 := registerOverlay_lookup_isSome hr hk
          have h2 := ho4 k (by rw [h1]; exact hk)
          rw [h2, h1]
        · rcases registerOverlay_cases hr with hc1 | ⟨_, hc1⟩
          · exact ⟨t1, by rw [ho5, hc1]⟩
          · refine ⟨[o] ++ t1, ?_⟩
            rw [ho5, hc1]
            simp
        · rw [ho6, hshape]
        · rw [ho7, hshape]
        · rw [ho8, hshape]
        · rw [ho9, hshape]
        · rw [ho10, hshape]
    | some v =>
      rw [hlk] at h
      cases hv : v with
      | none =>
        rw [hv] at h
        obtain ⟨ho1, ho2, ho3, ho4, ho5, ho6, ho7, ho8, ho9, ho10⟩ :=
          ih c accO accG ovs gs c' h
        have hro : readyIn c o = false := by unfold readyIn; rw [hlk, hv]
        have hroo : readyObj c o = none := by unfold readyObj; rw [hlk, hv]
        exact ⟨by rw [ho1, List.filter_cons_of_neg (by simp [hro])],
          by rw [ho2, List.filterMap_cons_none (by simp [hroo])],
          ho3, ho4, ho5, ho6, ho7, ho8, ho9, ho10⟩
      | some g =>
        rw [hv] at h
        obtain ⟨ho1, ho2, ho3, ho4, ho5, ho6, ho7, ho8, ho9, ho10⟩ :=
          ih c (accO ++ [o]) (accG ++ [g]) ovs gs c' h
        have hro : readyIn c o = true := by unfold readyIn; rw [hlk, hv]
        have hroo : readyObj c o = some g := by unfold readyObj; rw [hlk, hv]
        refine ⟨?_, ?_, ho3, ho4, ho5, ho6, ho7, ho8, ho9, ho10⟩
        · rw [ho1, List.filter_cons_of_pos (by simp [hro])]
          simp
        · rw [ho2]
          simp [List.filterMap_cons, hroo]

/-- Lazy registration in the loop: a renderable overlay in the
traversed order with no entry ends the call with a pending entry and a
queued construction task. -/
lemma getGLLoop_registers {env : Env} {o : Overlay} {d : Display} :
    ∀ (l : List Overlay) (c : Canvas) (accO : List Overlay) (accG : List GLObj)
      (ovs : List Overlay) (gs : List GLObj) (c' : Canvas),
      o ∈ l →
      lookupOvl c.glObjects o = none →
      o.cls ≠ OverlayClass.otherClass →
      env.displays o = some d →
      d.overlayType ∈ renderableTypes →
      getGLLoop env l c accO accG = some (ovs, gs, c') →
      lookupOvl c'.glObjects o = some none ∧ o ∈ c'.tasks := by
  intro l
  induction l with
  | nil =>
    intro c accO accG ovs gs c' hmem
    exact absurd hmem (List.not_mem_nil o)
  | cons o' rest ih =>
    intro c accO accG ovs gs c' hmem h0 hcls hd ht h
    simp only [getGLLoop] at h
    by_cases hoo : o' = o
    · subst hoo
      rw [h0] at h
      rw [registerOverlay_creates h0 hcls hd ht] at h
      have h' : getGLLoop env rest
          { c with glObjects := c.glObjects ++ [(o', none)],
                   tasks := c.tasks ++ [o'],
                   listeners := c.listeners ++
                     [Listener.displayEnabled o', Listener.displayType o'] }
          accO accG = some (ovs, gs, c') := h
      obtain ⟨_, _, _, hpres, ⟨t, htasks⟩, _⟩ :=
        getGLLoop_spec rest _ accO accG ovs gs c' h'
      have hlk1 : lookupOvl (c.glObjects ++ [(o', none)]) o' = some none := by
        rw [lookupOvl_append_right h0]
        exact if_pos rfl
      have hsome : (lookupOvl ({ c with glObjects := c.glObjects ++ [(o', none)],
                                        tasks := c.tasks ++ [o'],
                                        listeners := c.listeners ++
                                          [Listener.displayEnabled o', Listener.displayType o'] } :
          Canvas).glObjects o').isSome = true := by
        show (lookupOvl (c.glObjects ++ [(o', none)]) o').isSome = true
        rw [hlk1]
        rfl
      refine ⟨?_, ?_⟩
      · rw [hpres o' hsome]
        show lookupOvl (c.glObjects ++ [(o', none)]) o' = some none
        exact hlk1
      · rw [htasks]
        refine List.mem_append.mpr (Or.inl ?_)
        show o' ∈ c.tasks ++ [o']
        simp
    · have hmem' : o ∈ rest := by
        rcases List.mem_cons.mp hmem with h1 | h1
        · exact absurd h1.symm hoo
        · exact h1
      cases hlk : lookupOvl c.glObjects o' with
      | none =>
        rw [hlk] at h
        cases hr : registerOverlay env c o' with
        | none => rw [hr] at h; exact absurd h (by simp)
        | some c1 =>
          rw [hr] at h
          have h0' : lookupOvl c1.glObjects o = none :=
            registerOverlay_lookup_none_ne hr hoo h0
          exact ih c1 accO accG ovs gs c' hmem' h0' hcls hd ht h
      | some v =>
        rw [hlk] at h
        cases hv : v with
        | none =>
          rw [hv] at h
          exact ih c accO accG ovs gs c' hmem' h0 hcls hd ht h
        | some g =>
          rw [hv] at h
          exact ih c (accO ++ [o']) (accG ++ [g]) ovs gs c' hmem' h0 hcls hd ht h

/-- Every listed overlay occurs in the draw order, whichever occlusion
policy is active. -/
lemma mem_ovlOrder {o : Overlay} {l : List Overlay} (h : o ∈ l) (occl : Bool) :
    o ∈ ovlOrderOf occl l := by
  have hcases : o ∈ surfsOf l ∨ o ∈ volsOf l ∨ o ∈ othersOf l := by
    cases hcls : o.cls with
    | triangleMesh =>
      exact Or.inl (List.mem_filter.mpr ⟨h, by simp [hcls, OverlayClass.isMesh]⟩)
    | image =>
      exact Or.inr (Or.inl (List.mem_filter.mpr ⟨h, by simp [hcls, OverlayClass.isImage]⟩))
    | otherClass =>
      refine Or.inr (Or.inr (List.mem_filter.mpr ⟨h, ?_⟩))
      have hs : o ∉ surfsOf l := by
        intro hmem
        have := (List.mem_filter.mp hmem).2
        rw [hcls] at this
        simp [OverlayClass.isMesh] at this
      have hv : o ∉ volsOf l := by
        intro hmem
        have := (List.mem_filter.mp hmem).2
        rw [hcls] at this
        simp [OverlayClass.isImage] at this
      simpa using ⟨hs, hv⟩
  unfold ovlOrderOf
  rcases hcases with h1 | h1 | h1 <;> cases occl <;> simp [h1]

/-! Registry-key uniqueness: the at-most-one-entry invariant. -/

/-- The key-uniqueness invariant on the registry. -/
def keysND (c : Canvas) : Prop := (c.glObjects.map Prod.fst).Nodup

lemma keysND_append {c : Canvas} {o : Overlay}
    (h : keysND c) (h0 : lookupOvl c.glObjects o = none) :
    ((c.glObjects ++ [(o, none)]).map Prod.fst).Nodup := by
  rw [List.map_append]
  refine List.nodup_append.mpr ⟨h, List.nodup_singleton _, ?_⟩
  intro a ha hb
  simp only [List.map_cons, List.map_nil, List.mem_singleton] at hb
  subst hb
  exact lookupOvl_eq_none.mp h0 ha

lemma keysND_of_pop {c : Canvas} {o : Overlay} (h : keysND c) :
    ((popOvl c.glObjects o).map Prod.fst).Nodup :=
  h.sublist (List.Sublist.map Prod.fst (popOvl_sublist c.glObjects o))

lemma registerOverlay_keysND {env : Env} {c : Canvas} {o : Overlay} {c' : Canvas}
    (hr : registerOverlay env c o = some c') (h : keysND c) : keysND c' := by
  rcases registerOverlay_cases hr with hc | ⟨h0, hc⟩
  · rw [hc]; exact h
  · rw [hc]; exact keysND_append h h0

lemma genGLObject_keysND {env : Env} {c : Canvas} {o : Overlay} {b : Bool} {c' : Canvas}
    (hg : genGLObject env c o = some (b, c')) (h : keysND c) : keysND c' := by
  rcases genGLObject_cases hg with ⟨_, hc⟩ | ⟨_, h0, hc⟩
  · rw [hc]; exact h
  · rw [hc]; exact keysND_append h h0

lemma deregisterOverlay_keysND {env : Env} {c : Canvas} {o : Overlay} {c' : Canvas}
    (hd : deregisterOverlay env c o = some c') (h : keysND c) : keysND c' := by
  rcases (deregisterOverlay_spec hd).1 with hc | hc
  · rw [keysND, hc]; exact h
  · rw [keysND, hc]; exact keysND_of_pop h

lemma deregisterList_keysND {env : Env} :
    ∀ {l : List Overlay} {c c' : Canvas},
      deregisterList env l c = some c' → keysND c → keysND c' := by
  intro l
  induction l with
  | nil =>
    intro c c' h hnd
    simp only [deregisterList, Option.some.injEq] at h
    subst h
    exact hnd
  | cons o rest ih =>
    intro c c' h hnd
    simp only [deregisterList] at h
    cases hd : deregisterOverlay env c o with
    | none => rw [hd] at h; exact absurd h (by simp)
    | some c1 =>
      rw [hd] at h
      exact ih h (deregisterOverlay_keysND hd hnd)

lemma registerMissing_keysND {env : Env} :
    ∀ {l : List Overlay} {c c' : Canvas},
      registerMissing env l c = some c' → keysND c → keysND c' := by
  intro l
  induction l with
  | nil =>
    intro c c' h hnd
    simp only [registerMissing, Option.some.injEq] at h
    subst h
    exact hnd
  | cons o rest ih =>
    intro c c' h hnd
    simp only [registerMissing] at h
    by_cases hs : (lookupOvl c.glObjects o).isSome
    · rw [if_pos hs] at h
      exact ih h hnd
    · rw [if_neg hs] at h
      cases hr : registerOverlay env c o with
      | none => rw [hr] at h; exact absurd h (by simp)
      | some c1 =>
        rw [hr] at h
        exact ih h (registerOverlay_keysND hr hnd)

lemma overlayListChanged_keysND {env : Env} {c c' : Canvas}
    (h : overlayListChanged env c = some c') (hnd : keysND c) : keysND c' := by
  unfold overlayListChanged at h
  dsimp only at h
  split at h
  · exact absurd h (by simp)
  · rename_i c1 hd
    exact registerMissing_keysND h (deregisterList_keysND hd hnd)

lemma overlayTypeChanged_keysND {env : Env} {c : Canvas} {o : Overlay} {c' : Canvas}
    (h : overlayTypeChanged env c o = some c') (hnd : keysND c) : keysND c' := by
  unfold overlayTypeChanged at h
  split at h
  · exact absurd h (by simp)
  · dsimp only at h
    split at h
    · exact absurd h (by simp)
    · rename_i bc c2 hg
      simp only [Option.some.injEq] at h
      rw [← h]
      have h2 := genGLObject_keysND hg (keysND_of_pop hnd)
      exact h2
  · split at h
    · exact absurd h (by simp)
    · rename_i bc c2 hg
      simp only [Option.some.injEq] at h
      rw [← h]
      have h2 := genGLObject_keysND hg hnd
      exact h2

lemma runCreate_keysND (tenv : TaskEnv) (c : Canvas) (o : Overlay)
    (hnd : keysND c) : keysND (runCreate tenv c o) := by
  unfold runCreate
  split
  · exact hnd
  · split
    · exact hnd
    · split
      · exact keysND_of_pop hnd
      · split
        · exact hnd
        · show ((setOvl c.glObjects o _).map Prod.fst).Nodup
          rw [setOvl_keys]
          exact hnd

lemma runNextTask_keysND (tenv : TaskEnv) (c : Canvas) (hnd : keysND c) :
    keysND (runNextTask tenv c) := by
  unfold runNextTask
  split
  · exact hnd
  · exact runCreate_keysND tenv _ _ hnd

lemma getGLLoop_keysND {env : Env} :
    ∀ {l : List Overlay} {c : Canvas} {accO : List Overlay} {accG : List GLObj}
      {r : List Overlay × List GLObj × Canvas},
      getGLLoop env l c accO accG = some r → keysND c → keysND r.2.2 := by
  intro l
  induction l with
  | nil =>
    intro c accO accG r h hnd
    simp only [getGLLoop, Option.some.injEq] at h
    rw [← h]
    exact hnd
  | cons o rest ih =>
    intro c accO accG r h hnd
    simp only [getGLLoop] at h
    cases hlk : lookupOvl c.glObjects o with
    | none =>
      rw [hlk] at h
      cases hr : registerOverlay env c o with
      | none => rw [hr] at h; exact absurd h (by simp)
      | some c1 =>
        rw [hr] at h
        exact ih h (registerOverlay_keysND hr hnd)
    | some v =>
      rw [hlk] at h
      cases hv : v with
      | none => rw [hv] at h; exact ih h hnd
      | some g => rw [hv] at h; exact ih h hnd

lemma getGLObjects_keysND {env : Env} {c : Canvas}
    {r : List Overlay × List GLObj × Canvas}
    (h : getGLObjects env c = some r) (hnd : keysND c) : keysND r.2.2 :=
  getGLLoop_keysND h hnd

lemma setViewport_glObjects (env : Env) (c : Canvas) :
    (setViewport env c).1.glObjects = c.glObjects := by
  unfold setViewport
  dsimp only
  split
  · rfl
  · split
    · rfl
    · show (genViewMatrix env c).glObjects = c.glObjects
      unfold genViewMatrix
      rfl

lemma setViewport_keysND (env : Env) (c : Canvas) (hnd : keysND c) :
    keysND (setViewport env c).1 := by
  rw [keysND, setViewport_glObjects]
  exact hnd

lemma draw_keysND {env : Env} {tenv : TaskEnv} {c : Canvas}
    {r : Canvas × List DrawEvent} (h : draw env tenv c = some r) (hnd : keysND c) :
    keysND r.1 := by
  unfold draw at h
  split at h
  · simp only [Option.some.injEq] at h
    rw [← h]
    exact hnd
  · dsimp only at h
    split at h
    · simp only [Option.some.injEq] at h
      rw [← h]
      exact setViewport_keysND env c hnd
    · cases hg : getGLObjects env (setViewport env c).1 with
      | none => rw [hg] at h; exact absurd h (by simp)
      | some res =>
        obtain ⟨ovls, globjs, c2⟩ := res
        rw [hg] at h
        dsimp only at h
        have hkey2 : keysND c2 := getGLObjects_keysND hg (setViewport_keysND env c hnd)
        split at h
        · simp only [Option.some.injEq] at h
          rw [← h]
          exact hkey2
        · cases hres : drawObjectsLoop env (ovls.zip globjs) [] with
          | none => rw [hres] at h; exact absurd h (by simp)
          | some evs =>
            rw [hres] at h
            simp only [Option.some.injEq] at h
            rw [← h]
            exact hkey2

lemma refresh_glObjects (c : Canvas) : (Canvas.refresh c).glObjects = c.glObjects := rfl

lemma notifyOpts_glObjects (c : Canvas) (p : String) :
    (notifyOpts c p).glObjects = c.glObjects := by
  unfold notifyOpts
  split
  · exact refresh_glObjects c
  · rfl

lemma defaultLightPos_glObjects (env : Env) (c : Canvas) :
    (defaultLightPos env c).glObjects = c.glObjects := by
  unfold defaultLightPos
  exact (notifyOpts_glObjects _ _).trans rfl

lemma displayBoundsChanged_glObjects (env : Env) (c : Canvas) :
    (displayBoundsChanged env c).glObjects = c.glObjects := by
  unfold displayBoundsChanged
  split
  · exact (refresh_glObjects _).trans (defaultLightPos_glObjects env c)
  · exact refresh_glObjects c

lemma destroy_keysND {env : Env} {c c' : Canvas}
    (h : destroy env c = some c') (hnd : keysND c) : keysND c' := by
  unfold destroy at h
  dsimp only at h
  split at h
  · exact absurd h (by simp)
  · rename_i c2 hd
    simp only [Option.some.injEq] at h
    rw [← h]
    have h2 := deregisterList_keysND hd hnd
    exact h2

/-- Every canvas operation preserves registry-key uniqueness. -/
lemma step_keysND {c c' : Canvas} (h : Step c c') (hnd : keysND c) : keysND c' := by
  cases h with
  | register env o c c' hr => exact registerOverlay_keysND hr hnd
  | deregister env o c c' hd => exact deregisterOverlay_keysND hd hnd
  | listChanged env c c' hl => exact overlayListChanged_keysND hl hnd
  | typeChanged env o c c' ht => exact overlayTypeChanged_keysND ht hnd
  | boundsChanged env c => rw [keysND, displayBoundsChanged_glObjects]; exact hnd
  | optsChanged p c => rw [keysND, notifyOpts_glObjects]; exact hnd
  | glObjectsCall env c r hg => exact getGLObjects_keysND hg hnd
  | taskRun tenv c => exact runNextTask_keysND tenv c hnd
  | drawCall env tenv c r hdr => exact draw_keysND hdr hnd
  | destroyCall env c c' hde => exact destroy_keysND hde hnd

/-- Reachable states have unique registry keys. -/
lemma reachable_keysND {c : Canvas} (h : Reachable c) : keysND c := by
  induction h with
  | init o w h => exact List.nodup_nil
  | step _ hstep ih => exact step_keysND hstep ih

/-! Refresh accounting. -/

lemma notifyOpts_refresh_of_mem {c : Canvas} {p : String}
    (h : Listener.optsL p ∈ c.listeners) :
    (notifyOpts c p).refreshCount = c.refreshCount + 1 := by
  unfold notifyOpts
  rw [if_pos h]
  rfl

lemma notifyOpts_refresh_of_not_mem {c : Canvas} {p : String}
    (h : Listener.optsL p ∉ c.listeners) : notifyOpts c p = c := by
  unfold notifyOpts
  rw [if_neg h]

lemma notifyOpts_refresh_ge (c : Canvas) (p : String) :
    c.refreshCount ≤ (notifyOpts c p).refreshCount := by
  unfold notifyOpts
  split
  · exact Nat.le_succ _
  · exact Nat.le_refl _

lemma defaultLightPos_refresh_ge (env : Env) (c : Canvas) :
    c.refreshCount ≤ (defaultLightPos env c).refreshCount := by
  unfold defaultLightPos
  dsimp only
  have h := notifyOpts_refresh_ge { c with opts := { c.opts with lightPos := ![env.bounds.centre 0 + env.bounds.xlen, env.bounds.centre 1 + env.bounds.ylen, env.bounds.centre 2] } } "lightPos"
  exact h

lemma displayBoundsChanged_refresh (env : Env) (c : Canvas) :
    c.refreshCount < (displayBoundsChanged env c).refreshCount := by
  unfold displayBoundsChanged
  split
  · exact Nat.lt_succ_of_le (defaultLightPos_refresh_ge env c)
  · exact Nat.lt_succ_self _

lemma registerMissing_refresh {env : Env} :
    ∀ {l : List Overlay} {c c' : Canvas}, registerMissing env l c = some c' →
      c'.refreshCount = c.refreshCount := by
  intro l
  induction l with
  | nil =>
    intro c c' h
    simp only [registerMissing, Option.some.injEq] at h
    rw [← h]
  | cons o rest ih =>
    intro c c' h
    simp only [registerMissing] at h
    by_cases hs : (lookupOvl c.glObjects o).isSome
    · rw [if_pos hs] at h
      exact ih h
    · rw [if_neg hs] at h
      cases hr : registerOverlay env c o with
      | none => rw [hr] at h; exact absurd h (by simp)
      | some c1 =>
        rw [hr] at h
        obtain ⟨gl, ts, ls, hc1⟩ := registerOverlay_shape hr
        rw [ih h, hc1]

lemma overlayListChanged_refresh {env : Env} {c c' : Canvas}
    (h : overlayListChanged env c = some c') : c'.refreshCount = c.refreshCount := by
  unfold overlayListChanged at h
  dsimp only at h
  split at h
  · exact absurd h (by simp)
  · rename_i c1 hd
    rw [registerMissing_refresh h]
    exact (deregisterList_spec _ _ _ hd).2.2.2.1

/-! Viewport configuration. -/

lemma setViewport_false_iff (env : Env) (c : Canvas) :
    (setViewport env c).2 = false ↔
      (c.width = 0 ∨ c.height = 0 ∨ 1 < degenCount env.bounds) := by
  unfold setViewport
  dsimp only
  by_cases h1 : c.width = 0 ∨ c.height = 0
  · rw [if_pos h1]
    simp only [true_iff]
    rcases h1 with h | h
    · simp [h]
    · simp [h]
  · rw [if_neg h1]
    by_cases h2 : 1 < degenCount env.bounds
    · rw [if_pos h2]
      simp [h2]
    · rw [if_neg h2]
      constructor
      · intro hfalse
        exact absurd hfalse (by simp)
      · intro hor
        rcases hor with h | h | h
        · exact absurd h (not_or.mp h1).1
        · exact absurd h (not_or.mp h1).2
        · exact absurd h h2

lemma setViewport_fst_of_false {env : Env} {c : Canvas}
    (h : (setViewport env c).2 = false) : (setViewport env c).1 = c := by
  by_cases h1 : c.width = 0 ∨ c.height = 0
  · unfold setViewport
    dsimp only
    rw [if_pos h1]
  · by_cases h2 : 1 < degenCount env.bounds
    · unfold setViewport
      dsimp only
      rw [if_neg h1, if_pos h2]
    · exfalso
      unfold setViewport at h
      dsimp only at h
      rw [if_neg h1, if_neg h2] at h
      simp at h

/-- When the context is available but viewport configuration fails, the
frame aborts after the background clear: no overlay, cursor or legend
draw happens, no state changes, and no error escapes. -/
lemma draw_viewport_fail {env : Env} {tenv : TaskEnv} {c : Canvas}
    (hctx : tenv.ctxOK = true) (hvp : (setViewport env c).2 = false) :
    draw env tenv c = some (c, [DrawEvent.clearEvt c.opts.bgColour]) := by
  unfold draw
  rw [if_neg (by simp [hctx])]
  dsimp only
  rw [if_pos (by simp [hvp]), setViewport_fst_of_false hvp]

/-! Affine algebra for the coordinate round trip. -/

lemma invert4_eq_inv (M : Mat4) : invert4 M = M⁻¹ := by
  rw [invert4, Matrix.inv_def, Ring.inverse_eq_inv']

lemma invert4_of_right_inv {M N : Mat4} (h : M * N = 1) : invert4 M = N := by
  rw [invert4_eq_inv]
  exact Matrix.inv_eq_right_inv h

lemma mulVec_toHom {M : Mat4} (haff : M 3 = ![0, 0, 0, 1]) (p : Vec3) :
    M.mulVec (toHom p) = toHom (affineApply M p) := by
  have h0 : M 3 0 = 0 := by rw [haff]; rfl
  have h1 : M 3 1 = 0 := by rw [haff]; rfl
  have h2 : M 3 2 = 0 := by rw [haff]; rfl
  have h3 : M 3 3 = 1 := by rw [haff]; rfl
  funext i
  fin_cases i <;>
    simp [Matrix.mulVec, Matrix.dotProduct, Fin.sum_univ_four, toHom, affineApply,
      h0, h1, h2, h3]

lemma affine_row_of_inv {M N : Mat4} (haff : M 3 = ![0, 0, 0, 1])
    (h1 : M * N = 1) : N 3 = ![0, 0, 0, 1] := by
  have hM0 : M 3 0 = 0 := by rw [haff]; rfl
  have hM1 : M 3 1 = 0 := by rw [haff]; rfl
  have hM2 : M 3 2 = 0 := by rw [haff]; rfl
  have hM3 : M 3 3 = 1 := by rw [haff]; rfl
  funext j
  have hj := congrFun (congrFun h1 3) j
  rw [Matrix.mul_apply, Fin.sum_univ_four, hM0, hM1, hM2, hM3] at hj
  simp only [zero_mul, one_mul, zero_add] at hj
  rw [hj]
  fin_cases j <;> simp [Matrix.one_apply]

lemma affine_roundtrip {M N : Mat4} (haff : M 3 = ![0, 0, 0, 1])
    (h1 : M * N = 1) (h2 : N * M = 1) (p : Vec3) :
    affineApply N (affineApply M p) = p := by
  have hN3 := affine_row_of_inv haff h1
  have hhom : N.mulVec (M.mulVec (toHom p)) = toHom p := by
    rw [Matrix.mulVec_mulVec, h2, Matrix.one_mulVec]
  rw [mulVec_toHom haff, mulVec_toHom hN3] at hhom
  funext i
  fin_cases i
  · have := congrFun hhom 0
    simpa [toHom] using this
  · have := congrFun hhom 1
    simpa [toHom] using this
  · have := congrFun hhom 2
    simpa [toHom] using this

/-! Concrete-fixture evaluation lemmas. -/

lemma setViewport_width (env : Env) (c : Canvas) :
    (setViewport env c).1.width = c.width := by
  unfold setViewport
  dsimp only
  split
  · rfl
  · split
    · rfl
    · show (genViewMatrix env c).width = c.width
      unfold genViewMatrix
      rfl

lemma setViewport_height (env : Env) (c : Canvas) :
    (setViewport env c).1.height = c.height := by
  unfold setViewport
  dsimp only
  split
  · rfl
  · split
    · rfl
    · show (genViewMatrix env c).height = c.height
      unfold genViewMatrix
      rfl

/-- The view matrix `__setViewport` computes for the fixture
configuration: zoom 100, no offset, identity rotation over `[0,2]^3`
on a 100x100 canvas. -/
lemma c0view_viewMat : c0view.viewMat = M0 := by
  show ((setViewport envV c0).1).viewMat = M0
  rw [setViewport]
  norm_num [degenCount, isclose, genViewMatrix, genViewComponents, c0, initCanvas, envV, b0,
    opts0, Bounds.centre, Bounds.xlen, Bounds.ylen, Bounds.zlen, adjust, scaleOffsetXform,
    rotMatToAffine, translationXform, embed3, lookAt, cross, dot3, M0]
  ext i j
  fin_cases i <;> fin_cases j <;>
    simp [Matrix.mul_apply, Fin.sum_univ_four, Matrix.of_apply] <;>
      norm_num [Matrix.vecHead, Matrix.vecTail]

lemma M0_mul_N0 : M0 * N0 = 1 := by
  ext i j
  fin_cases i <;> fin_cases j <;>
    simp [Matrix.mul_apply, Fin.sum_univ_four, M0, N0, Matrix.one_apply] <;>
      norm_num [Matrix.vecHead, Matrix.vecTail]

lemma N0_mul_M0 : N0 * M0 = 1 := by
  ext i j
  fin_cases i <;> fin_cases j <;>
    simp [Matrix.mul_apply, Fin.sum_univ_four, M0, N0, Matrix.one_apply] <;>
      norm_num [Matrix.vecHead, Matrix.vecTail]

lemma c0view_width : c0view.width = 100 := by
  show ((setViewport envV c0).1).width = 100
  rw [setViewport_width]
  rfl

lemma c0view_height : c0view.height = 100 := by
  show ((setViewport envV c0).1).height = 100
  rw [setViewport_height]
  rfl

/-! The claims. -/

/-- C4: registering an overlay that already has a registry entry
(pending sentinel or ready GLObject) is a no-op — `registerOverlay`
returns the canvas unchanged, so the entry count, task queue and
listener subscriptions are all untouched. The display record is assumed
valid, as it is whenever an entry exists. -/
theorem C4_register_idempotent (env : Env) (c : Canvas) (o : Overlay)
    (h1 : (lookupOvl c.glObjects o).isSome) (h2 : (env.displays o).isSome) :
    registerOverlay env c o = some c :=
  registerOverlay_noop_of_entry h1 h2

theorem C4_register_idempotent_witness :
    (lookupOvl cPend.glObjects V1).isSome = true ∧
    (envV.displays V1).isSome = true ∧
    registerOverlay envV cPend V1 = some cPend :=
  ⟨by decide, by decide,
   C4_register_idempotent envV cPend V1 (by decide) (by decide)⟩

/-- C5: an overlay whose `Display.overlayType` is outside
{volume, mesh, giftimesh} never acquires a registry entry or a
construction task (`registerOverlay` returns the canvas unchanged), and
in every reachable state the registry holds at most one entry per
overlay (its key list is duplicate-free). -/
theorem C5_type_filter_and_unique_entries :
    (∀ (env : Env) (c : Canvas) (o : Overlay) (d : Display),
      env.displays o = some d → d.overlayType ∉ renderableTypes →
      registerOverlay env c o = some c) ∧
    (∀ c : Canvas, Reachable c → (regKeys c).Nodup) := by
  constructor
  · intro env c o d hd ht
    unfold registerOverlay
    split
    · rfl
    · rw [hd]
      by_cases hs : (lookupOvl c.glObjects o).isSome
      · rw [genGLObject_noop_of_entry hs]
      · have hg : genGLObject env c o = some (false, c) := by
          unfold genGLObject
          rw [if_neg hs, hd]
          exact if_neg ht
        rw [hg]
  · intro c hr
    exact reachable_keysND hr

theorem C5_type_filter_witness :
    env3.displays S2 = some dLabel ∧
    dLabel.overlayType ∉ renderableTypes ∧
    registerOverlay env3 c0 S2 = some c0 ∧
    (regKeys (initCanvas opts0 1 1)).Nodup :=
  ⟨by decide, by decide,
   C5_type_filter_and_unique_entries.1 env3 c0 S2 dLabel (by decide) (by decide),
   C5_type_filter_and_unique_entries.2 _ (Reachable.init opts0 1 1)⟩

/-- C1: `getGLObjects` partitions the display-context-ordered overlays
into surfaces (TriangleMesh), volumes (Image) and other, preserving the
display-context order within each class, orders them
surfaces-volumes-other when occlusion is on and volumes-surfaces-other
when it is off, and returns exactly the ready entries of that order as
parallel (overlay, GLObject) sequences. -/
theorem C1_occlusion_ordering (env : Env) (c : Canvas) (ovs : List Overlay)
    (gs : List GLObj) (c' : Canvas)
    (h : getGLObjects env c = some (ovs, gs, c')) :
    ovs = (if c.opts.occlusion = true
           then surfsOf env.orderedOverlays ++ volsOf env.orderedOverlays ++
             othersOf env.orderedOverlays
           else volsOf env.orderedOverlays ++ surfsOf env.orderedOverlays ++
             othersOf env.orderedOverlays).filter (fun o => readyIn c o) ∧
    gs = (if c.opts.occlusion = true
          then surfsOf env.orderedOverlays ++ volsOf env.orderedOverlays ++
            othersOf env.orderedOverlays
          else volsOf env.orderedOverlays ++ surfsOf env.orderedOverlays ++
            othersOf env.orderedOverlays).filterMap (fun o => readyObj c o) := by
  unfold getGLObjects at h
  obtain ⟨h1, h2, _⟩ := getGLLoop_spec _ c [] [] ovs gs c' h
  constructor
  · rw [h1]
    simp [ovlOrderOf]
  · rw [h2]
    simp [ovlOrderOf]

theorem C1_occlusion_ordering_witness :
    getGLObjects env3 c3on = some ([S1, V1, O1], [g2, g1, g3], c3on) ∧
    getGLObjects env3 c3off = some ([V1, S1, O1], [g1, g2, g3], c3off) ∧
    [S1, V1, O1] =
      (if c3on.opts.occlusion = true
       then surfsOf env3.orderedOverlays ++ volsOf env3.orderedOverlays ++
         othersOf env3.orderedOverlays
       else volsOf env3.orderedOverlays ++ surfsOf env3.orderedOverlays ++
         othersOf env3.orderedOverlays).filter (fun o => readyIn c3on o) :=
  ⟨by decide, by decide,
   (C1_occlusion_ordering env3 c3on [S1, V1, O1] [g2, g1, g3] c3on (by decide)).1⟩

/-- C6: `getGLObjects` never returns an overlay whose entry is pending
or absent; a renderable overlay with no entry is lazily registered by
the call (pending sentinel inserted, construction task queued) while
being excluded from the returned sequences, and once its construction
task completes successfully it appears in the sequences returned by the
next call. -/
theorem C6_ready_set_exclusion (env : Env) (c : Canvas) (o : Overlay) (d : Display)
    (g : GLObj) (tenv : TaskEnv) (ovs : List Overlay) (gs : List GLObj) (c' : Canvas)
    (hmem : o ∈ env.orderedOverlays)
    (habsent : lookupOvl c.glObjects o = none)
    (hcls : o.cls ≠ OverlayClass.otherClass)
    (hdisp : env.displays o = some d)
    (htype : d.overlayType ∈ renderableTypes)
    (hcall : getGLObjects env c = some (ovs, gs, c'))
    (halive : c.alive = true)
    (hctx : tenv.ctxOK = true)
    (hfac : tenv.factory o = some g) :
    (∀ o' ∈ ovs, readyIn c o' = true) ∧
    o ∉ ovs ∧
    lookupOvl c'.glObjects o = some none ∧
    o ∈ c'.tasks ∧
    (∀ ovs₂ gs₂ c₂, getGLObjects env (runCreate tenv c' o) = some (ovs₂, gs₂, c₂) →
      o ∈ ovs₂) := by
  unfold getGLObjects at hcall
  obtain ⟨h1, h2, hrdy, hpres, htk, halive', hrc, hopts, hwd, hht⟩ :=
    getGLLoop_spec _ c [] [] ovs gs c' hcall
  have hexcl : ∀ o' ∈ ovs, readyIn c o' = true := by
    intro o' ho'
    rw [h1] at ho'
    simp only [List.nil_append] at ho'
    exact (List.mem_filter.mp ho').2
  have hnotmem : o ∉ ovs := by
    intro hmem₂
    have := hexcl o hmem₂
    unfold readyIn at this
    rw [habsent] at this
    exact absurd this (by simp)
  obtain ⟨hpend, htask⟩ :=
    getGLLoop_registers _ c [] [] ovs gs c'
      (mem_ovlOrder hmem c.opts.occlusion) habsent hcls hdisp htype hcall
  refine ⟨hexcl, hnotmem, hpend, htask, ?_⟩
  intro ovs₂ gs₂ c₂ hcall₂
  have hrun : runCreate tenv c' o =
      { c' with glObjects := setOvl c'.glObjects o (some g),
                listeners := c'.listeners ++ [Listener.globjRegister o] } :=
    runCreate_success (halive'.trans halive) (by rw [hpend]; rfl) hctx hfac
  have hready₂ : readyIn (runCreate tenv c' o) o = true := by
    rw [hrun]
    unfold readyIn
    show (match lookupOvl (setOvl c'.glObjects o (some g)) o with
      | some (some _) => true
      | _ => false) = true
    rw [lookupOvl_setOvl_self (some g) (by rw [hpend]; rfl)]
  unfold getGLObjects at hcall₂
  obtain ⟨h1₂, _⟩ := getGLLoop_spec _ _ [] [] ovs₂ gs₂ c₂ hcall₂
  rw [h1₂]
  simp only [List.nil_append]
  exact List.mem_filter.mpr ⟨mem_ovlOrder hmem _, hready₂⟩

theorem C6_ready_set_exclusion_witness :
    getGLObjects envV c0 = some ([], [], cPend) ∧
    lookupOvl cPend.glObjects V1 = some none ∧
    V1 ∈ cPend.tasks ∧
    runCreate tenvOK cPend V1 = cDone ∧
    getGLObjects envV cDone = some ([V1], [g1], cDone) ∧
    V1 ∈ ([V1] : List Overlay) := by
  have hc := C6_ready_set_exclusion envV c0 V1 dVol g1 tenvOK [] [] cPend
    (by decide) (by decide) (by decide) (by decide) (by decide) (by decide)
    (by decide) (by decide) (by decide)
  refine ⟨by decide, hc.2.2.1, hc.2.2.2.1, by decide, by decide, ?_⟩
  exact hc.2.2.2.2 [V1] [g1] cDone (by decide)

/-- C10: when a deferred construction task runs with the canvas alive,
the entry pending and the GL context available, but the GLObject factory
returns `None`, the canvas is left entirely unchanged, so the pending
sentinel persists: the overlay is excluded from `getGLObjects`, any
later registration attempt is a no-op (the entry still exists), and
construction is never retried — unlike the context-unavailable case, in
which the entry is popped and the next `getGLObjects` call registers the
overlay afresh (new pending entry and new queued task). -/
theorem C10_factory_none_pending_forever (env : Env) (tenv : TaskEnv) (c : Canvas)
    (o : Overlay) (d : Display)
    (halive : c.alive = true)
    (hpend : lookupOvl c.glObjects o = some none)
    (hctx : tenv.ctxOK = true)
    (hfac : tenv.factory o = none)
    (hdisp : env.displays o = some d)
    (hmem : o ∈ env.orderedOverlays)
    (hcls : o.cls ≠ OverlayClass.otherClass)
    (htype : d.overlayType ∈ renderableTypes)
    (hnd : (regKeys c).Nodup) :
    runCreate tenv c o = c ∧
    (∀ ovs gs c', getGLObjects env c = some (ovs, gs, c') → o ∉ ovs) ∧
    registerOverlay env c o = some c ∧
    (∀ tenv₂ : TaskEnv, tenv₂.ctxOK = false →
      lookupOvl (runCreate tenv₂ c o).glObjects o = none ∧
      (∀ ovs gs c', getGLObjects env (runCreate tenv₂ c o) = some (ovs, gs, c') →
        lookupOvl c'.glObjects o = some none ∧ o ∈ c'.tasks)) := by
  have hsome : (lookupOvl c.glObjects o).isSome := by rw [hpend]; rfl
  refine ⟨runCreate_factory_none halive hsome hctx hfac, ?_, ?_, ?_⟩
  · intro ovs gs c' hcall
    unfold getGLObjects at hcall
    obtain ⟨h1, _⟩ := getGLLoop_spec _ c [] [] ovs gs c' hcall
    intro hmem₂
    rw [h1] at hmem₂
    simp only [List.nil_append] at hmem₂
    have := (List.mem_filter.mp hmem₂).2
    unfold readyIn at this
    rw [hpend] at this
    exact absurd this (by simp)
  · exact registerOverlay_noop_of_entry hsome (by rw [hdisp]; rfl)
  · intro tenv₂ hctx₂
    have hrun : runCreate tenv₂ c o = { c with glObjects := popOvl c.glObjects o } :=
      runCreate_noctx halive hsome hctx₂
    have hnone : lookupOvl (runCreate tenv₂ c o).glObjects o = none := by
      rw [hrun]
      exact lookupOvl_popOvl_self hnd
    refine ⟨hnone, ?_⟩
    intro ovs gs c' hcall
    unfold getGLObjects at hcall
    exact getGLLoop_registers _ _ [] [] ovs gs c'
      (mem_ovlOrder hmem _) hnone hcls hdisp htype hcall

theorem C10_factory_none_pending_forever_witness :
    runCreate tenvNoneF cPend V1 = cPend ∧
    getGLObjects envV cPend = some ([], [], cPend) ∧
    V1 ∉ ([] : List Overlay) ∧
    registerOverlay envV cPend V1 = some cPend ∧
    lookupOvl (runCreate tenvNoCtx cPend V1).glObjects V1 = none ∧
    getGLObjects envV (runCreate tenvNoCtx cPend V1) = some ([], [], cRetry) ∧
    lookupOvl cRetry.glObjects V1 = some none ∧
    V1 ∈ cRetry.tasks := by
  have hc := C10_factory_none_pending_forever envV tenvNoneF cPend V1 dVol
    (by decide) (by decide) (by decide) (by decide) (by decide) (by decide)
    (by decide) (by decide) (by decide)
  have h4 := hc.2.2.2 tenvNoCtx (by decide)
  refine ⟨hc.1, by decide, ?_, hc.2.2.1, h4.1, by decide, ?_, ?_⟩
  · exact hc.2.1 [] [] cPend (by decide)
  · exact (h4.2 [] [] cRetry (by decide)).1
  · exact (h4.2 [] [] cRetry (by decide)).2

/-- C9 counterexample: the claim "whenever any Scene3DCanvasOpts
property changes ... and whenever the overlay set changes ... the
canvas issues a Refresh" is false on the code. `lightPos` is a
Scene3DCanvasOpts property, but `__init__` subscribes no listener for
it, so changing it issues no Refresh; and `__overlayListChanged` itself
calls no Refresh: adding overlay V1 leaves the refresh count at 0. -/
theorem C9_refresh_counterexample :
    "lightPos" ∈ sceneOptsProps ∧
    notifyOpts c0 "lightPos" = c0 ∧
    c0.refreshCount = 0 ∧
    overlayListChanged envV c0 = some cPend ∧
    cPend.refreshCount = 0 :=
  ⟨by decide, by decide, by decide, by decide, by decide⟩

/-- C9 amended: a Refresh is issued synchronously whenever one of the
nine subscribed opts properties (pos, showCursor, cursorColour,
bgColour, showLegend, occlusion, zoom, offset, rotation) changes, and
whenever the display-context bounds change; an overlay-list change
issues no Refresh of its own (and unsubscribed opts properties such as
lightPos or legendColour issue none, per the counterexample). -/
theorem C9_refresh_subscribed (env : Env) (c : Canvas) (p : String)
    (hp : p ∈ subscribedOptsProps)
    (hl : ∀ q ∈ subscribedOptsProps, Listener.optsL q ∈ c.listeners) :
    (notifyOpts c p).refreshCount = c.refreshCount + 1 ∧
    c.refreshCount < (displayBoundsChanged env c).refreshCount ∧
    (∀ c', overlayListChanged env c = some c' → c'.refreshCount = c.refreshCount) :=
  ⟨notifyOpts_refresh_of_mem (hl p hp), displayBoundsChanged_refresh env c,
   fun _ h => overlayListChanged_refresh h⟩

theorem C9_refresh_subscribed_witness :
    "zoom" ∈ subscribedOptsProps ∧
    (notifyOpts c0 "zoom").refreshCount = c0.refreshCount + 1 ∧
    c0.refreshCount < (displayBoundsChanged envV c0).refreshCount ∧
    cPend.refreshCount = c0.refreshCount := by
  have hc := C9_refresh_subscribed envV c0 "zoom" (by decide) (by decide)
  exact ⟨by decide, hc.1, hc.2.1, hc.2.2 cPend (by decide)⟩

/-- C8 counterexample: the claim that after `destroy()` every listener
the canvas subscribed — including those on its own opts properties —
has been removed is false on the code: `destroy` never removes the nine
opts listeners added in `__init__`. Destroying a fresh canvas returns
normally, yet the `zoom` opts listener is still subscribed. -/
theorem C8_teardown_counterexample :
    destroy envV c0 = some c0post ∧
    c0post.alive = false ∧
    Listener.optsL "zoom" ∈ c0post.listeners :=
  ⟨by decide, by decide, by decide⟩

/-- C8 amended: when `destroy()` returns (a pending entry would make it
raise), the registry is empty, the canvas is marked destroyed, any
construction task that fires afterwards performs no mutation, and the
shared-collaborator listeners are removed: the overlay-list and bounds
subscriptions, and, for every overlay that had a registry entry, its
Display `enabled`/`overlayType` listeners (when the Display record is
still valid) and its GLObject refresh registration. The canvas's own
opts-property listeners are not removed (see the counterexample). -/
theorem C8_teardown_symmetry (env : Env) (c c' : Canvas)
    (hnd : c.listeners.Nodup)
    (h : destroy env c = some c') :
    c'.glObjects = [] ∧
    c'.alive = false ∧
    (∀ (tenv : TaskEnv) (o : Overlay), runCreate tenv c' o = c') ∧
    Listener.overlaysL ∉ c'.listeners ∧
    Listener.boundsL ∉ c'.listeners ∧
    (∀ o ∈ regKeys c,
      ((env.displays o).isSome →
        Listener.displayEnabled o ∉ c'.listeners ∧
        Listener.displayType o ∉ c'.listeners) ∧
      Listener.globjRegister o ∉ c'.listeners) := by
  unfold destroy at h
  dsimp only at h
  split at h
  · exact absurd h (by simp)
  · rename_i c2 hd
    simp only [Option.some.injEq] at h
    have hnd1 : ((c.listeners.erase Listener.overlaysL).erase Listener.boundsL).Nodup :=
      (hnd.erase _).erase _
    obtain ⟨hempty, hndrest⟩ := deregisterList_exact (c.glObjects.map Prod.fst)
      { c with listeners := (c.listeners.erase Listener.overlaysL).erase Listener.boundsL }
      c2 rfl hd
    obtain ⟨hnd2, hlrest⟩ := hndrest hnd1
    have hsub : c2.listeners ⊆ (c.listeners.erase Listener.overlaysL).erase Listener.boundsL :=
      (deregisterList_spec _ _ _ hd).1
    have hov : Listener.overlaysL ∉ c2.listeners := by
      intro hm
      exact hnd.not_mem_erase (List.mem_of_mem_erase (hsub hm))
    have hbd : Listener.boundsL ∉ c2.listeners := by
      intro hm
      exact (hnd.erase _).not_mem_erase (hsub hm)
    subst h
    refine ⟨hempty, rfl, ?_, hov, hbd, ?_⟩
    · intro tenv o
      exact runCreate_destroyed rfl
    · intro o hmem
      exact hlrest o hmem

theorem C8_teardown_symmetry_witness :
    cReady.listeners.Nodup ∧
    destroy envV cReady = some cReadyPost ∧
    cReadyPost.glObjects = [] ∧
    cReadyPost.alive = false ∧
    runCreate tenvOK cReadyPost V1 = cReadyPost ∧
    Listener.overlaysL ∉ cReadyPost.listeners ∧
    Listener.boundsL ∉ cReadyPost.listeners ∧
    Listener.displayEnabled V1 ∉ cReadyPost.listeners ∧
    Listener.displayType V1 ∉ cReadyPost.listeners ∧
    Listener.globjRegister V1 ∉ cReadyPost.listeners := by
  have hc := C8_teardown_symmetry envV cReady cReadyPost (by decide) (by decide)
  have ho := hc.2.2.2.2.2 V1 (by decide)
  exact ⟨by decide, by decide, hc.1, hc.2.1, hc.2.2.1 tenvOK V1, hc.2.2.2.1,
    hc.2.2.2.2.1, (ho.1 (by decide)).1, (ho.1 (by decide)).2, ho.2⟩

/-- C3: viewport configuration fails exactly when the viewport width or
height is zero or more than one axis of the scene bounds is degenerate
(lo approximately equal to hi under the `np.isclose` tolerances); with
exactly one degenerate axis and a nonzero viewport it succeeds; and on
failure the frame's draw returns normally having emitted only the
background clear — no overlay, cursor or legend is drawn and the canvas
state is untouched. -/
theorem C3_viewport_degeneracy (env : Env) (tenv : TaskEnv) (c : Canvas) :
    ((setViewport env c).2 = false ↔
      (c.width = 0 ∨ c.height = 0 ∨ 1 < degenCount env.bounds)) ∧
    (tenv.ctxOK = true → (setViewport env c).2 = false →
      draw env tenv c = some (c, [DrawEvent.clearEvt c.opts.bgColour])) :=
  ⟨setViewport_false_iff env c, fun hctx hvp => draw_viewport_fail hctx hvp⟩

theorem C3_viewport_degeneracy_witness :
    1 < degenCount envDeg.bounds ∧
    (setViewport envDeg c0).2 = false ∧
    draw envDeg tenvOK c0 = some (c0, [DrawEvent.clearEvt c0.opts.bgColour]) ∧
    degenCount envFlat.bounds = 1 ∧
    (setViewport envFlat c0).2 = true := by
  have hdeg : degenCount envDeg.bounds = 2 := by
    show degenCount bDegen = 2
    norm_num [degenCount, isclose, bDegen]
  have hflat : degenCount envFlat.bounds = 1 := by
    show degenCount bFlat = 1
    norm_num [degenCount, isclose, bFlat]
  have h2 : 1 < degenCount envDeg.bounds := by rw [hdeg]; exact Nat.one_lt_two
  have hfail : (setViewport envDeg c0).2 = false :=
    (C3_viewport_degeneracy envDeg tenvOK c0).1.mpr (Or.inr (Or.inr h2))
  refine ⟨h2, hfail, (C3_viewport_degeneracy envDeg tenvOK c0).2 rfl hfail, hflat, ?_⟩
  cases hsnd : (setViewport envFlat c0).2 with
  | true => rfl
  | false =>
    exfalso
    have := (C3_viewport_degeneracy envFlat tenvOK c0).1.mp hsnd
    rcases this with h | h | h
    · exact absurd h (by decide)
    · exact absurd h (by decide)
    · rw [hflat] at h
      exact absurd h (by decide)

/-- C2: the model-view matrix `__genViewMatrix` produces is exactly the
composition offset * scale * camera * rotation — the rotation (about
the bounds centroid) applied first, then the fixed look-at camera whose
eye is the centroid offset by +1 along y with up-axis +z, then uniform
scaling by zoom/100 about the origin, then the aspect-adjusted 2D
pixel-offset translation last; and this order matters: on a concrete
non-trivial configuration the reversed composition yields a different
matrix. -/
theorem C2_view_matrix_composition :
    (∀ (env : Env) (c : Canvas),
      (genViewMatrix env c).viewMat =
        scaleOffsetXform ![1, 1, 1]
            ![(adjust env.bounds.xlen env.bounds.ylen (c.width : ℚ) (c.height : ℚ)).1 *
                c.opts.offset.1 / 2,
              (adjust env.bounds.xlen env.bounds.ylen (c.width : ℚ) (c.height : ℚ)).2 *
                c.opts.offset.2 / 2, 0] *
          scaleOffsetXform ![c.opts.zoom / 100, c.opts.zoom / 100, c.opts.zoom / 100]
            ![0, 0, 0] *
          lookAt ![env.bounds.centre 0, env.bounds.centre 1 + 1, env.bounds.centre 2]
            env.bounds.centre ![0, 0, 1] *
          (translationXform env.bounds.centre * embed3 c.opts.rotation *
            translationXform (fun i => -(env.bounds.centre i)))) ∧
    (genViewMatrix envV cR).viewMat ≠
      (translationXform envV.bounds.centre * embed3 cR.opts.rotation *
          translationXform (fun i => -(envV.bounds.centre i))) *
        lookAt ![envV.bounds.centre 0, envV.bounds.centre 1 + 1, envV.bounds.centre 2]
          envV.bounds.centre ![0, 0, 1] *
        scaleOffsetXform ![cR.opts.zoom / 100, cR.opts.zoom / 100, cR.opts.zoom / 100]
          ![0, 0, 0] *
        scaleOffsetXform ![1, 1, 1]
          ![(adjust envV.bounds.xlen envV.bounds.ylen (cR.width : ℚ) (cR.height : ℚ)).1 *
              cR.opts.offset.1 / 2,
            (adjust envV.bounds.xlen envV.bounds.ylen (cR.width : ℚ) (cR.height : ℚ)).2 *
              cR.opts.offset.2 / 2, 0] := by
  constructor
  · intro env c
    rfl
  · intro hcontra
    have h2 := congrFun (congrFun hcontra 0) 1
    rw [show (genViewMatrix envV cR).viewMat =
        scaleOffsetXform ![1, 1, 1]
            ![(adjust envV.bounds.xlen envV.bounds.ylen (cR.width : ℚ) (cR.height : ℚ)).1 *
                cR.opts.offset.1 / 2,
              (adjust envV.bounds.xlen envV.bounds.ylen (cR.width : ℚ) (cR.height : ℚ)).2 *
                cR.opts.offset.2 / 2, 0] *
          scaleOffsetXform ![cR.opts.zoom / 100, cR.opts.zoom / 100, cR.opts.zoom / 100]
            ![0, 0, 0] *
          lookAt ![envV.bounds.centre 0, envV.bounds.centre 1 + 1, envV.bounds.centre 2]
            envV.bounds.centre ![0, 0, 1] *
          (translationXform envV.bounds.centre * embed3 cR.opts.rotation *
            translationXform (fun i => -(envV.bounds.centre i))) from rfl] at h2
    norm_num [envV, b0, cR, optsR, opts0, initCanvas, Bounds.centre, Bounds.xlen,
      Bounds.ylen, Bounds.zlen, adjust, scaleOffsetXform, translationXform, embed3,
      lookAt, cross, dot3, Matrix.mul_apply, Fin.sum_univ_four, Matrix.vecHead,
      Matrix.vecTail] at h2

/-- C7 counterexample: the claim that `canvasToWorld`, applied to the
canvas-pixel projection of any world point, recovers that point is
false on the code: `canvasToWorld` reconstructs every pixel at viewport
depth -1, so a point off that plane is not recovered. Here the view
state is the one cached by a successful `__setViewport` over `[0,2]^3`
(zoom 100, identity rotation, no offset, 100x100 viewport); the world
point (1,2,1) sits at view depth 0, and the round trip returns the
bounds centre (1,1,1) instead. -/
theorem C7_roundtrip_counterexample :
    c0view.viewMat = M0 ∧
    canvasToWorld envV c0view (pixelProject envV c0view ![1, 2, 1]).1
      (pixelProject envV c0view ![1, 2, 1]).2 ≠ ![1, 2, 1] := by
  refine ⟨c0view_viewMat, ?_⟩
  have hinv : invert4 c0view.viewMat = N0 := by
    rw [c0view_viewMat]
    exact invert4_of_right_inv M0_mul_N0
  intro hcontra
  have h2 := congrFun hcontra 1
  rw [canvasToWorld] at h2
  rw [hinv] at h2
  norm_num [pixelProject, envV, b0, Bounds.xlen, Bounds.ylen, Bounds.zlen, adjust,
    c0view_viewMat, c0view_width, c0view_height, affineApply, M0, N0,
    Matrix.vecHead, Matrix.vecTail] at h2

/-- C7 amended: for a valid viewport (nonzero pixel size and nonzero
adjusted extents), an invertible affine cached view matrix, and a world
point lying at view depth -1 (the plane of the camera's unit eye
offset, the depth at which `canvasToWorld` reconstructs every pixel),
`canvasToWorld` applied to the canvas-pixel projection of the point
recovers it exactly; and `canvasToWorld` reads only the cached view
matrix and canvas size — it does not recompute the view matrix from the
current opts. -/
theorem C7_roundtrip_on_eye_plane (env : Env) (c : Canvas) (N : Mat4) (p : Vec3)
    (hw : (c.width : ℚ) ≠ 0) (hh : (c.height : ℚ) ≠ 0)
    (hx : (adjust env.bounds.xlen env.bounds.ylen (c.width : ℚ) (c.height : ℚ)).1 ≠ 0)
    (hy : (adjust env.bounds.xlen env.bounds.ylen (c.width : ℚ) (c.height : ℚ)).2 ≠ 0)
    (haff : c.viewMat 3 = ![0, 0, 0, 1])
    (hinv1 : c.viewMat * N = 1) (hinv2 : N * c.viewMat = 1)
    (hdepth : affineApply c.viewMat p 2 = -1) :
    canvasToWorld env c (pixelProject env c p).1 (pixelProject env c p).2 = p ∧
    (∀ (c₂ : Canvas) (x y : ℚ), c₂.viewMat = c.viewMat → c₂.width = c.width →
      c₂.height = c.height → canvasToWorld env c₂ x y = canvasToWorld env c x y) := by
  constructor
  · unfold canvasToWorld pixelProject
    dsimp only
    have hA : (adjust env.bounds.xlen env.bounds.ylen (c.width : ℚ) (c.height : ℚ)).1 *
        ((c.width : ℚ) * (affineApply c.viewMat p 0 +
          (adjust env.bounds.xlen env.bounds.ylen (c.width : ℚ) (c.height : ℚ)).1 / 2) /
          (adjust env.bounds.xlen env.bounds.ylen (c.width : ℚ) (c.height : ℚ)).1 /
          (c.width : ℚ)) -
        (adjust env.bounds.xlen env.bounds.ylen (c.width : ℚ) (c.height : ℚ)).1 / 2 =
        affineApply c.viewMat p 0 := by
      field_simp
      ring
    have hB : (adjust env.bounds.xlen env.bounds.ylen (c.width : ℚ) (c.height : ℚ)).2 *
        ((c.height : ℚ) * (affineApply c.viewMat p 1 +
          (adjust env.bounds.xlen env.bounds.ylen (c.width : ℚ) (c.height : ℚ)).2 / 2) /
          (adjust env.bounds.xlen env.bounds.ylen (c.width : ℚ) (c.height : ℚ)).2 /
          (c.height : ℚ)) -
        (adjust env.bounds.xlen env.bounds.ylen (c.width : ℚ) (c.height : ℚ)).2 / 2 =
        affineApply c.viewMat p 1 := by
      field_simp
      ring
    rw [hA, hB]
    have hvec : ![affineApply c.viewMat p 0, affineApply c.viewMat p 1, (-1 : ℚ)] =
        affineApply c.viewMat p := by
      funext i
      fin_cases i
      · rfl
      · rfl
      · exact hdepth.symm
    rw [hvec, invert4_of_right_inv hinv1]
    exact affine_roundtrip haff hinv1 hinv2 p
  · intro c₂ x y h1 h2 h3
    unfold canvasToWorld
    rw [h1, h2, h3]

theorem C7_roundtrip_on_eye_plane_witness :
    ((c0view.width : ℚ) ≠ 0) ∧
    (adjust envV.bounds.xlen envV.bounds.ylen (c0view.width : ℚ) (c0view.height : ℚ)).1 ≠ 0 ∧
    c0view.viewMat * N0 = 1 ∧
    N0 * c0view.viewMat = 1 ∧
    affineApply c0view.viewMat ![1, 1, 1] 2 = -1 ∧
    canvasToWorld envV c0view (pixelProject envV c0view ![1, 1, 1]).1
      (pixelProject envV c0view ![1, 1, 1]).2 = ![1, 1, 1] := by
  have hw : (c0view.width : ℚ) ≠ 0 := by rw [c0view_width]; norm_num
  have hh : (c0view.height : ℚ) ≠ 0 := by rw [c0view_height]; norm_num
  have hadj : (adjust envV.bounds.xlen envV.bounds.ylen (c0view.width : ℚ)
      (c0view.height : ℚ)) = (2, 2) := by
    rw [c0view_width, c0view_height]
    norm_num [envV, b0, Bounds.xlen, Bounds.ylen, adjust]
  have hx : (adjust envV.bounds.xlen envV.bounds.ylen (c0view.width : ℚ)
      (c0view.height : ℚ)).1 ≠ 0 := by rw [hadj]; norm_num
  have hy : (adjust envV.bounds.xlen envV.bounds.ylen (c0view.width : ℚ)
      (c0view.height : ℚ)).2 ≠ 0 := by rw [hadj]; norm_num
  have hM : c0view.viewMat * N0 = 1 := by rw [c0view_viewMat]; exact M0_mul_N0
  have hN : N0 * c0view.viewMat = 1 := by rw [c0view_viewMat]; exact N0_mul_M0
  have haff : c0view.viewMat 3 = ![0, 0, 0, 1] := by
    rw [c0view_viewMat]
    funext j
    fin_cases j <;> rfl
  have hdepth : affineApply c0view.viewMat ![1, 1, 1] 2 = -1 := by
    rw [c0view_viewMat]
    norm_num [affineApply, M0, Matrix.vecHead, Matrix.vecTail]
  exact ⟨hw, hx, hM, hN, hdepth,
    (C7_roundtrip_on_eye_plane envV c0view N0 ![1, 1, 1]
      hw hh hx hy haff hM hN hdepth).1⟩

end Scene3D
